import Mathlib

/-!
Verification of the viam-philips-hue module: a shallow embedding of the
mode controller (lights_mode.go) and the per-channel color switch
(light_color.go), together with proofs of the specified properties.

Bridge-facing calls are modelled by an explicit simulator state `Sim`
holding the device states, a call counter, and logs of attempted reads
and writes; call failures are injected by an oracle on the call index.
The floating-point color codec (rgbToXY / xyBriToRGB) is passed to the
channel-switch operations as opaque function parameters, since the mode
logic and the switch control flow never inspect its numeric output
beyond the integer channel triple.
-/

namespace ViamHue

/-- The subset of fields of `huego.State` that the mode controller and the
channel switches read or write.  Go zero values are the field defaults.
Chromaticity values (float32 pairs in the source) are carried as opaque
integer tokens because this code only ever copies them. -/
structure HState where
  isOn : Bool := false
  bri : Nat := 0
  hue : Nat := 0
  sat : Nat := 0
  ct : Nat := 0
  xy : List Int := []
  effect : String := ""
  transitionTime : Nat := 0
  colorMode : String := ""
  deriving DecidableEq, Repr

/-- Errors surfaced by the embedded operations; `getFailed`/`setFailed`
stand for the wrapped bridge errors of the source, keyed by the light id
so that distinct failures are distinguishable. -/
inductive HueErr where
  | getFailed (id : Nat)
  | setFailed (id : Nat)
  | invalidPosition (p : Nat)
  | unknownMode (m : String)
  deriving DecidableEq, Repr

/-- Modelled from the spec: the Hue bridge device semantics of a state
write, which is external-collaborator behaviour with no implementation in
the repository.  Spec section 6: a write carries a sparse field set and
fields omitted from it must not be altered on the device; the wire
encoding silently omits zero-valued fields (the omitempty tags on
`huego.State`), while the on/off flag is always sent.  The derived
color-mode tag follows the device priority: chromaticity, then color
temperature, then hue/saturation. -/
def applyWrite (d s : HState) : HState :=
  { isOn := s.isOn
    bri := if s.bri ≠ 0 then s.bri else d.bri
    hue := if s.hue ≠ 0 then s.hue else d.hue
    sat := if s.sat ≠ 0 then s.sat else d.sat
    ct := if s.ct ≠ 0 then s.ct else d.ct
    xy := if s.xy ≠ [] then s.xy else d.xy
    effect := if s.effect ≠ "" then s.effect else d.effect
    transitionTime := if s.transitionTime ≠ 0 then s.transitionTime else d.transitionTime
    colorMode :=
      if s.xy ≠ [] then "xy"
      else if s.ct ≠ 0 then "ct"
      else if s.hue ≠ 0 ∨ s.sat ≠ 0 then "hs"
      else d.colorMode }

/-- Bridge simulator: device states by light id, the number of bridge
calls attempted so far, and logs of attempted reads and writes. -/
structure Sim where
  lights : Nat → Option HState
  calls : Nat := 0
  getLog : List Nat := []
  writeLog : List (Nat × HState) := []

/-- One `bridge.GetLight` round trip: fails when the oracle marks this
call index, or when the light id is unknown to the bridge. -/
def simGet (fail : Nat → Bool) (id : Nat) (σ : Sim) : Option HState × Sim :=
  let σ' : Sim := { σ with calls := σ.calls + 1, getLog := σ.getLog ++ [id] }
  if fail σ.calls then (none, σ')
  else (σ.lights id, σ')

/-- One `light.SetState` round trip: the attempt is always logged; on
success the sparse write is applied to the device state. -/
def simSet (fail : Nat → Bool) (id : Nat) (s : HState) (σ : Sim) : Bool × Sim :=
  let σ' : Sim := { σ with calls := σ.calls + 1, writeLog := σ.writeLog ++ [(id, s)] }
  if fail σ.calls then (false, σ')
  else
    match σ.lights id with
    | some d => (true, { σ' with lights := fun j => if j = id then some (applyWrite d s) else σ.lights j })
    | none => (false, σ')

/-- The oracle under which every bridge call succeeds. -/
def noFail : Nat → Bool := fun _ => false

/-! ## Mode controller (lights_mode.go) -/

/-- `modeNames` from the source: switch position to mode name. -/
def modeNames : List String := ["none", "dance", "daylight", "warm"]

/-- The mutable fields of `hueLightMode` together with its configuration;
the dance group map is an association list with the source map semantics
recovered through `sortedKeys` and `lookupGroup`. -/
structure Controller where
  dance : List (String × List Nat) := []
  daylight : List Nat := []
  warm : List Nat := []
  position : Nat := 0
  savedStates : List (Nat × HState) := []

/-- Insertion of a name into a sorted name list (helper for `sortedKeys`,
written structurally so that concrete runs reduce in the kernel). -/
def insertSorted (s : String) : List String → List String
  | [] => [s]
  | t :: rest => if s ≤ t then s :: t :: rest else t :: insertSorted s rest

/-- Insertion sort on names (helper for `sortedKeys`). -/
def sortStrings : List String → List String
  | [] => []
  | s :: rest => insertSorted s (sortStrings rest)

/-- `sortedKeys`: the group names in ascending order (`sort.Strings`). -/
def sortedKeys (m : List (String × List Nat)) : List String :=
  sortStrings (m.map Prod.fst)

/-- Map indexing `groups[k]` of the source (missing key gives the empty list). -/
def lookupGroup (m : List (String × List Nat)) (k : String) : List Nat :=
  match m.find? (fun p => p.1 == k) with
  | some p => p.2
  | none => []

/-- `flattenDanceGroups`: all group members in sorted key order. -/
def flattenDanceGroups (groups : List (String × List Nat)) : List Nat :=
  (sortedKeys groups).flatMap (fun k => lookupGroup groups k)

/-- `lightIDsForPosition`: the flat list of light ids for a mode position. -/
def lightIDsForPosition (c : Controller) (pos : Nat) : List Nat :=
  match modeNames.getD pos "" with
  | "dance" => flattenDanceGroups c.dance
  | "daylight" => c.daylight
  | "warm" => c.warm
  | _ => []

/-- Go map insertion for the saved-state snapshot (replace or append). -/
def insertAssoc (id : Nat) (st : HState) : List (Nat × HState) → List (Nat × HState)
  | [] => [(id, st)]
  | (j, d) :: rest => if j = id then (id, st) :: rest else (j, d) :: insertAssoc id st rest

/-- Snapshot lookup by light id. -/
def lookupAssoc : List (Nat × HState) → Nat → Option HState
  | [], _ => none
  | (j, d) :: rest, k => if j = k then some d else lookupAssoc rest k

/-- The loop body of `saveState`: read each light and record a copy of its
state, stopping at the first failed read. -/
def saveStateLoop (fail : Nat → Bool) (ids : List Nat) (c : Controller) (σ : Sim) :
    Controller × Sim × Option HueErr :=
  match ids with
  | [] => (c, σ, none)
  | id :: rest =>
    let g := simGet fail id σ
    match g.1 with
    | some st =>
      saveStateLoop fail rest { c with savedStates := insertAssoc id st c.savedStates } g.2
    | none => (c, g.2, some (HueErr.getFailed id))

/-- `saveState`: the snapshot map is replaced wholesale before reading. -/
def saveState (fail : Nat → Bool) (ids : List Nat) (c : Controller) (σ : Sim) :
    Controller × Sim × Option HueErr :=
  saveStateLoop fail ids { c with savedStates := [] } σ

/-- The minimum-positive bump for zero-valued omitempty fields. -/
def bump1 (n : Nat) : Nat := if n = 0 then 1 else n

/-- Step 2 of the restore sequence: brightness plus the color fields
matching the snapshot color-mode tag, zero values bumped to 1. -/
def restorePayload (st : HState) : HState :=
  let base : HState := { isOn := st.isOn, bri := bump1 st.bri }
  if st.colorMode = "ct" then { base with ct := st.ct }
  else if st.colorMode = "xy" then { base with xy := st.xy }
  else if st.colorMode = "hs" then { base with hue := bump1 st.hue, sat := bump1 st.sat }
  else base

/-- Step 1 of the restore sequence: force power on and clear the effect. -/
def restoreClear : HState := { isOn := true, effect := "none" }

/-- `firstErr` bookkeeping of `restoreState`. -/
def keepFirst (acc : Option HueErr) (e : HueErr) : Option HueErr :=
  match acc with
  | some _ => acc
  | none => some e

/-- The loop body of `restoreState`: best effort, a failing fixture is
skipped with its error recorded if it is the first. -/
def restoreLoop (fail : Nat → Bool) (entries : List (Nat × HState)) (acc : Option HueErr)
    (σ : Sim) : Sim × Option HueErr :=
  match entries with
  | [] => (σ, acc)
  | (id, st) :: rest =>
    let g := simGet fail id σ
    match g.1 with
    | none => restoreLoop fail rest (keepFirst acc (HueErr.getFailed id)) g.2
    | some _ =>
      let s1 := simSet fail id restoreClear g.2
      if s1.1 then
        let s2 := simSet fail id (restorePayload st) s1.2
        if s2.1 then restoreLoop fail rest acc s2.2
        else restoreLoop fail rest (keepFirst acc (HueErr.setFailed id)) s2.2
      else restoreLoop fail rest (keepFirst acc (HueErr.setFailed id)) s1.2

/-- `restoreState`: restore every snapshotted fixture, then clear the
snapshot and reset the position unconditionally, returning the first
error encountered. -/
def restoreState (fail : Nat → Bool) (c : Controller) (σ : Sim) :
    Controller × Sim × Option HueErr :=
  let r := restoreLoop fail c.savedStates none σ
  ({ c with savedStates := [], position := 0 }, r.1, r.2)

/-- The group starting hue of `activateDance`: `uint16(i * 65535 / n)`,
bumped to 1 when the computed angle is 0. -/
def startHue (i n : Nat) : Nat :=
  if 0 < n then
    let h := (i * 65535 / n) % 65536
    if 0 < h then h else 1
  else 1

/-- First dance write per fixture: seed hue and saturation, power on. -/
def danceWrite1 (h : Nat) : HState := { isOn := true, hue := h, sat := 254 }

/-- Second dance write per fixture: start the colorloop, power on. -/
def danceWrite2 : HState := { isOn := true, effect := "colorloop" }

/-- The inner light loop of `activateDance`: two sequential writes per
fixture, failing fast on the first bridge error. -/
def danceLightLoop (fail : Nat → Bool) (h : Nat) (ids : List Nat) (σ : Sim) :
    Sim × Option HueErr :=
  match ids with
  | [] => (σ, none)
  | id :: rest =>
    let g := simGet fail id σ
    match g.1 with
    | none => (g.2, some (HueErr.getFailed id))
    | some _ =>
      let s1 := simSet fail id (danceWrite1 h) g.2
      if s1.1 then
        let s2 := simSet fail id danceWrite2 s1.2
        if s2.1 then danceLightLoop fail h rest s2.2
        else (s2.2, some (HueErr.setFailed id))
      else (s1.2, some (HueErr.setFailed id))

/-- The outer group loop of `activateDance`, iterating the sorted keys
with their index. -/
def danceKeyLoop (fail : Nat → Bool) (groups : List (String × List Nat)) (n : Nat) :
    Nat → List String → Sim → Sim × Option HueErr
  | _, [], σ => (σ, none)
  | i, k :: rest, σ =>
    let r := danceLightLoop fail (startHue i n) (lookupGroup groups k) σ
    match r.2 with
    | none => danceKeyLoop fail groups n (i + 1) rest r.1
    | some e => (r.1, some e)

/-- `activateDance`: staggered colorloop activation; the position is set
only when every fixture of every group succeeded. -/
def activateDance (fail : Nat → Bool) (groups : List (String × List Nat)) (pos : Nat)
    (c : Controller) (σ : Sim) : Controller × Sim × Option HueErr :=
  let keys := sortedKeys groups
  let r := danceKeyLoop fail groups keys.length 0 keys σ
  match r.2 with
  | none => ({ c with position := pos }, r.1, none)
  | some e => (c, r.1, some e)

/-- The daylight preset write (cool white, 153 mireds). -/
def daylightWrite : HState :=
  { isOn := true, bri := 254, ct := 153, effect := "none", transitionTime := 4 }

/-- The warm preset write (warm white, 370 mireds). -/
def warmWrite : HState :=
  { isOn := true, bri := 200, ct := 370, effect := "none", transitionTime := 4 }

/-- The shared loop shape of `activateDaylight` and `activateWarm`: one
preset write per fixture, failing fast. -/
def presetLoop (fail : Nat → Bool) (w : HState) (ids : List Nat) (σ : Sim) :
    Sim × Option HueErr :=
  match ids with
  | [] => (σ, none)
  | id :: rest =>
    let g := simGet fail id σ
    match g.1 with
    | none => (g.2, some (HueErr.getFailed id))
    | some _ =>
      let s1 := simSet fail id w g.2
      if s1.1 then presetLoop fail w rest s1.2
      else (s1.2, some (HueErr.setFailed id))

/-- `activateDaylight`. -/
def activateDaylight (fail : Nat → Bool) (ids : List Nat) (pos : Nat) (c : Controller)
    (σ : Sim) : Controller × Sim × Option HueErr :=
  let r := presetLoop fail daylightWrite ids σ
  match r.2 with
  | none => ({ c with position := pos }, r.1, none)
  | some e => (c, r.1, some e)

/-- `activateWarm`. -/
def activateWarm (fail : Nat → Bool) (ids : List Nat) (pos : Nat) (c : Controller)
    (σ : Sim) : Controller × Sim × Option HueErr :=
  let r := presetLoop fail warmWrite ids σ
  match r.2 with
  | none => ({ c with position := pos }, r.1, none)
  | some e => (c, r.1, some e)

/-- `SetPosition` of the mode switch: reject positions past the mode
table, restore on 0, otherwise snapshot then activate. -/
def modeSetPosition (fail : Nat → Bool) (pos : Nat) (c : Controller) (σ : Sim) :
    Controller × Sim × Option HueErr :=
  if modeNames.length ≤ pos then (c, σ, some (HueErr.invalidPosition pos))
  else if pos = 0 then restoreState fail c σ
  else
    let r := saveState fail (lightIDsForPosition c pos) c σ
    match r.2.2 with
    | some e => (r.1, r.2.1, some e)
    | none =>
      match modeNames.getD pos "" with
      | "dance" => activateDance fail c.dance pos r.1 r.2.1
      | "daylight" => activateDaylight fail c.daylight pos r.1 r.2.1
      | "warm" => activateWarm fail c.warm pos r.1 r.2.1
      | m => (r.1, r.2.1, some (HueErr.unknownMode m))

/-! ## Channel switch (light_color.go) -/

/-- `maxUint8` from the source. -/
def maxUint8 (a b c : Nat) : Nat :=
  if a ≥ b ∧ a ≥ c then a else if b ≥ c then b else c

/-- The channel-selection switch statement of `SetPosition`: overwrite
exactly the configured channel of the decoded triple. -/
def overwriteChannel (channel : String) (rgb : Nat × Nat × Nat) (cv : Nat) :
    Nat × Nat × Nat :=
  match channel with
  | "red" => (cv, rgb.2.1, rgb.2.2)
  | "green" => (rgb.1, cv, rgb.2.2)
  | "blue" => (rgb.1, rgb.2.1, cv)
  | _ => rgb

/-- `SetPosition` of the channel switch.  The float codec is passed in as
`dec` (for `xyBriToRGB`) and `enc` (for `rgbToXY`); the control flow —
range guard, read, overwrite, all-zero power-off, brightness cap, color
write — is translated from the source. -/
def lcSetPosition (dec : List Int → Nat → Nat × Nat × Nat)
    (enc : Nat → Nat → Nat → Int × Int) (channel : String) (lightID : Nat)
    (fail : Nat → Bool) (pos : Nat) (σ : Sim) : Sim × Option HueErr :=
  if 255 < pos then (σ, some (HueErr.invalidPosition pos))
  else
    let g := simGet fail lightID σ
    match g.1 with
    | none => (g.2, some (HueErr.getFailed lightID))
    | some light =>
      let rgb := overwriteChannel channel (dec light.xy light.bri) (pos % 256)
      let maxChan := maxUint8 rgb.1 rgb.2.1 rgb.2.2
      if maxChan = 0 then
        let s1 := simSet fail lightID { isOn := false } g.2
        if s1.1 then (s1.2, none) else (s1.2, some (HueErr.setFailed lightID))
      else
        let bri := if 254 < maxChan then 254 else maxChan
        let p := enc rgb.1 rgb.2.1 rgb.2.2
        let s1 := simSet fail lightID { isOn := true, bri := bri, xy := [p.1, p.2] } g.2
        if s1.1 then (s1.2, none) else (s1.2, some (HueErr.setFailed lightID))

/-- `GetPosition` of the channel switch: 0 for a powered-off fixture,
otherwise the configured channel of the decoded triple. -/
def lcGetPosition (dec : List Int → Nat → Nat × Nat × Nat) (channel : String)
    (lightID : Nat) (fail : Nat → Bool) (σ : Sim) : Nat × Sim × Option HueErr :=
  let g := simGet fail lightID σ
  match g.1 with
  | none => (0, g.2, some (HueErr.getFailed lightID))
  | some light =>
    if light.isOn = false then (0, g.2, none)
    else
      let rgb := dec light.xy light.bri
      let cv :=
        match channel with
        | "red" => rgb.1
        | "green" => rgb.2.1
        | "blue" => rgb.2.2
        | _ => 0
      (cv, g.2, none)

/-! ## Specification-side definitions

These phrase the properties to be checked; they are compared against the
executable embedding above and are not translations of source code. -/

/-- The list of cyclic gaps between the start angles assigned to `n`
groups, in sorted-index order: the `n - 1` adjacent differences followed
by the wrap-around gap on the 65536-position hue wheel. -/
def hueGaps (n : Nat) : List Nat :=
  (List.range (n - 1)).map (fun i => startHue (i + 1) n - startHue i n)
    ++ [65536 - startHue (n - 1) n + startHue 0 n]

/-- The write sequence the spec prescribes for cycle activation of the
keys at indices `i, i+1, ...`: per fixture, first the hue/saturation seed,
then the colorloop trigger, two separate writes in order. -/
def danceWriteSeqKeys (groups : List (String × List Nat)) (n : Nat) :
    Nat → List String → List (Nat × HState)
  | _, [] => []
  | i, k :: rest =>
    (lookupGroup groups k).flatMap
        (fun id => [(id, danceWrite1 (startHue i n)), (id, danceWrite2)])
      ++ danceWriteSeqKeys groups n (i + 1) rest

/-- The full prescribed cycle-activation write sequence. -/
def danceWriteSeq (groups : List (String × List Nat)) : List (Nat × HState) :=
  danceWriteSeqKeys groups (sortedKeys groups).length 0 (sortedKeys groups)

/-- The snapshot `saveState` is expected to produce: a fresh map holding,
for each listed id, a copy of its current device state. -/
def buildSnapLoop (lights : Nat → Option HState) (ids : List Nat)
    (acc : List (Nat × HState)) : List (Nat × HState) :=
  match ids with
  | [] => acc
  | id :: rest =>
    match lights id with
    | some st => buildSnapLoop lights rest (insertAssoc id st acc)
    | none => acc

/-- The expected fresh snapshot of `ids` read from `lights`. -/
def buildSnap (lights : Nat → Option HState) (ids : List Nat) : List (Nat × HState) :=
  buildSnapLoop lights ids []

/-- Ghost run of the restore loop that collects every per-fixture error
instead of only the first; used to state that `restoreState` processes
all fixtures and surfaces exactly the first error. -/
def restoreRun (fail : Nat → Bool) : List (Nat × HState) → Sim → Sim × List HueErr
  | [], σ => (σ, [])
  | (id, st) :: rest, σ =>
    let g := simGet fail id σ
    match g.1 with
    | none =>
      let r := restoreRun fail rest g.2
      (r.1, HueErr.getFailed id :: r.2)
    | some _ =>
      let s1 := simSet fail id restoreClear g.2
      if s1.1 then
        let s2 := simSet fail id (restorePayload st) s1.2
        if s2.1 then restoreRun fail rest s2.2
        else
          let r := restoreRun fail rest s2.2
          (r.1, HueErr.setFailed id :: r.2)
      else
        let r := restoreRun fail rest s1.2
        (r.1, HueErr.setFailed id :: r.2)

/-- The effect of a full two-step restore of snapshot `st` on a device
state `d`: clear the effect, then apply the tag-matched fields. -/
def applyRestoreFn (st d : HState) : HState :=
  applyWrite (applyWrite d restoreClear) (restorePayload st)

/-- The color-relevant projection preserved by dance activation. -/
def ctxy (d : HState) : Nat × List Int := (d.ct, d.xy)

/-- A codec stand-in decoding every device state to black; used to build
concrete scenarios. -/
def decZero : List Int → Nat → Nat × Nat × Nat := fun _ _ => (0, 0, 0)

/-- A codec stand-in encoding every triple to the origin; used to build
concrete scenarios. -/
def encZero : Nat → Nat → Nat → Int × Int := fun _ _ _ => (0, 0)

/-- A bridge exposing exactly one light, with id 1, in state `d`. -/
def simOne (d : HState) : Sim := { lights := fun j => if j = 1 then some d else none }

/-- The oracle that fails exactly the bridge call with index `k0`. -/
def failAt (k0 : Nat) : Nat → Bool := fun k => k == k0

/-- No oracle failure is injected on call indices in `[a, b)`. -/
def noOracleFail (fail : Nat → Bool) (a b : Nat) : Prop :=
  ∀ k, a ≤ k → k < b → fail k = false

/-- Fail-fast behaviour of a bridge-call sequence running from `σ` to
`σ'`: on success every call in the window succeeded; on error the very
last call attempted is the first (and only) failing one. -/
def FailFast (fail : Nat → Bool) (σ σ' : Sim) (e : Option HueErr) : Prop :=
  σ.calls ≤ σ'.calls ∧
  (e = none → noOracleFail fail σ.calls σ'.calls) ∧
  (e.isSome →
    σ.calls < σ'.calls ∧ fail (σ'.calls - 1) = true ∧
      noOracleFail fail σ.calls (σ'.calls - 1))

/-! ## Simulator step lemmas -/

theorem simGet_snd (fail : Nat → Bool) (id : Nat) (σ : Sim) :
    (simGet fail id σ).2 =
      { σ with calls := σ.calls + 1, getLog := σ.getLog ++ [id] } := by
  unfold simGet; split <;> rfl

theorem simGet_fst (fail : Nat → Bool) (id : Nat) (σ : Sim) (h : fail σ.calls = false) :
    (simGet fail id σ).1 = σ.lights id := by
  unfold simGet; rw [h]; rfl

theorem simSet_calls (fail : Nat → Bool) (id : Nat) (s : HState) (σ : Sim) :
    (simSet fail id s σ).2.calls = σ.calls + 1 := by
  unfold simSet; split
  · rfl
  · split <;> rfl

theorem simSet_getLog (fail : Nat → Bool) (id : Nat) (s : HState) (σ : Sim) :
    (simSet fail id s σ).2.getLog = σ.getLog := by
  unfold simSet; split
  · rfl
  · split <;> rfl

theorem simSet_writeLog (fail : Nat → Bool) (id : Nat) (s : HState) (σ : Sim) :
    (simSet fail id s σ).2.writeLog = σ.writeLog ++ [(id, s)] := by
  unfold simSet; split
  · rfl
  · split <;> rfl

theorem simSet_lights_other (fail : Nat → Bool) (id : Nat) (s : HState) (σ : Sim)
    (j : Nat) (hj : j ≠ id) : (simSet fail id s σ).2.lights j = σ.lights j := by
  unfold simSet; split
  · rfl
  · split
    · simp only [if_neg hj]
    · rfl

theorem simSet_lights_isSome (fail : Nat → Bool) (id : Nat) (s : HState) (σ : Sim)
    (j : Nat) : ((simSet fail id s σ).2.lights j).isSome = (σ.lights j).isSome := by
  unfold simSet; split
  · rfl
  · rename_i h
    split
    · rename_i d hd
      by_cases hj : j = id
      · subst hj; simp [hd]
      · simp [if_neg hj]
    · rfl

theorem simSet_ok (fail : Nat → Bool) (id : Nat) (s : HState) (σ : Sim) (d : HState)
    (hf : fail σ.calls = false) (hd : σ.lights id = some d) :
    (simSet fail id s σ).1 = true ∧
      (simSet fail id s σ).2.lights =
        fun j => if j = id then some (applyWrite d s) else σ.lights j := by
  unfold simSet; rw [hf]; simp only [Bool.false_eq_true, if_false, hd]
  exact ⟨trivial, trivial⟩

theorem simSet_ctxy (fail : Nat → Bool) (id : Nat) (s : HState) (σ : Sim)
    (hct : s.ct = 0) (hxy : s.xy = []) (j : Nat) :
    ((simSet fail id s σ).2.lights j).map ctxy = (σ.lights j).map ctxy := by
  unfold simSet; split
  · rfl
  · split
    · rename_i d hd
      by_cases hj : j = id
      · subst hj
        simp only [hd, if_pos rfl, Option.map_some]
        unfold applyWrite ctxy
        simp [hct, hxy]
      · simp [if_neg hj]
    · rfl

/-! ## C9: invalid position rejection -/

/-- C9: a channel-switch position above 255 and a mode-switch position
above 3 are both rejected with an invalid-input error before any bridge
call, leaving the simulator and the controller untouched. -/
theorem C9_invalid_position_rejection
    (dec : List Int → Nat → Nat × Nat × Nat) (enc : Nat → Nat → Nat → Int × Int)
    (channel : String) (lightID : Nat) (fail : Nat → Bool) (σ : Sim) (c : Controller)
    (p q : Nat) (hp : 255 < p) (hq : 3 < q) :
    lcSetPosition dec enc channel lightID fail p σ = (σ, some (HueErr.invalidPosition p)) ∧
    modeSetPosition fail q c σ = (c, σ, some (HueErr.invalidPosition q)) := by
  constructor
  · unfold lcSetPosition; rw [if_pos hp]
  · unfold modeSetPosition
    rw [if_pos (by simpa [modeNames] using hq)]

/-- Witness for C9 at the concrete invalid positions 256 and 4. -/
theorem C9_witness :
    lcSetPosition (fun _ _ => (0, 0, 0)) (fun _ _ _ => (0, 0)) "red" 1 noFail 256
        { lights := fun _ => none } =
      ({ lights := fun _ => none }, some (HueErr.invalidPosition 256)) ∧
    modeSetPosition noFail 4 {} { lights := fun _ => none } =
      ({}, { lights := fun _ => none }, some (HueErr.invalidPosition 4)) :=
  C9_invalid_position_rejection (fun _ _ => (0, 0, 0)) (fun _ _ _ => (0, 0)) "red" 1
    noFail { lights := fun _ => none } {} 256 4 (by decide) (by decide)

/-! ## C7: best-effort restore with unconditional reset -/

theorem restoreLoop_getLog (fail : Nat → Bool) (entries : List (Nat × HState)) :
    ∀ (acc : Option HueErr) (σ : Sim),
      (restoreLoop fail entries acc σ).1.getLog = σ.getLog ++ entries.map Prod.fst := by
  induction entries with
  | nil => intro acc σ; simp [restoreLoop]
  | cons p rest ih =>
    obtain ⟨id, st⟩ := p
    intro acc σ
    unfold restoreLoop
    cases hO : (simGet fail id σ).1 with
    | none =>
      simp only [hO]
      rw [ih, simGet_snd]
      simp
    | some st' =>
      simp only [hO]
      split
      · split
        · rw [ih, simSet_getLog, simSet_getLog, simGet_snd]; simp
        · rw [ih, simSet_getLog, simSet_getLog, simGet_snd]; simp
      · rw [ih, simSet_getLog, simGet_snd]; simp

theorem restoreLoop_eq_run (fail : Nat → Bool) (entries : List (Nat × HState)) :
    ∀ (acc : Option HueErr) (σ : Sim),
      (restoreLoop fail entries acc σ).1 = (restoreRun fail entries σ).1 ∧
      (restoreLoop fail entries acc σ).2 =
        (match acc with
         | some e => some e
         | none => (restoreRun fail entries σ).2.head?) := by
  induction entries with
  | nil => intro acc σ; cases acc <;> simp [restoreLoop, restoreRun]
  | cons p rest ih =>
    obtain ⟨id, st⟩ := p
    intro acc σ
    unfold restoreLoop restoreRun
    cases hO : (simGet fail id σ).1 with
    | none =>
      simp only [hO]
      refine ⟨(ih _ _).1, ?_⟩
      rw [(ih _ _).2]
      cases acc <;> simp [keepFirst]
    | some st' =>
      simp only [hO]
      split
      · split
        · exact ih acc _
        · refine ⟨(ih _ _).1, ?_⟩
          rw [(ih _ _).2]
          cases acc <;> simp [keepFirst]
      · refine ⟨(ih _ _).1, ?_⟩
        rw [(ih _ _).2]
        cases acc <;> simp [keepFirst]

/-- C7: restore (mode position 0) is best effort: every snapshotted
fixture is processed (its bridge read is attempted) no matter which
earlier fixtures failed, the surfaced error is the first error of the
run, and on completion the snapshot is cleared and the position reset to
0 unconditionally. -/
theorem C7_restore_best_effort (fail : Nat → Bool) (c : Controller) (σ : Sim) :
    (modeSetPosition fail 0 c σ).1.savedStates = [] ∧
    (modeSetPosition fail 0 c σ).1.position = 0 ∧
    (modeSetPosition fail 0 c σ).2.1.getLog = σ.getLog ++ c.savedStates.map Prod.fst ∧
    (modeSetPosition fail 0 c σ).2.2 = (restoreRun fail c.savedStates σ).2.head? := by
  have h0 : modeSetPosition fail 0 c σ =
      ({ c with savedStates := [], position := 0 },
        (restoreLoop fail c.savedStates none σ).1,
        (restoreLoop fail c.savedStates none σ).2) := by
    unfold modeSetPosition
    norm_num [modeNames, restoreState]
  rw [h0]
  refine ⟨rfl, rfl, ?_, ?_⟩
  · exact restoreLoop_getLog fail c.savedStates none σ
  · exact (restoreLoop_eq_run fail c.savedStates none σ).2

/-! ## C4: group offset calculator -/

theorem div_add_div_le (a b n : Nat) (hn : 0 < n) : a / n + b / n ≤ (a + b) / n := by
  rw [Nat.le_div_iff_mul_le hn]
  have h1 : a / n * n ≤ a := Nat.div_mul_le_self a n
  have h2 : b / n * n ≤ b := Nat.div_mul_le_self b n
  calc (a / n + b / n) * n = a / n * n + b / n * n := by ring
    _ ≤ a + b := Nat.add_le_add h1 h2

theorem startHue_eq (i n : Nat) (hi : i < n) : startHue i n = max 1 (i * 65535 / n) := by
  have hn : 0 < n := by omega
  have hlt : i * 65535 / n < 65536 := by
    rw [Nat.div_lt_iff_lt_mul hn]
    have : i * 65535 < n * 65535 :=
      (Nat.mul_lt_mul_right (by norm_num : (0 : Nat) < 65535)).mpr hi
    omega
  unfold startHue
  rw [if_pos hn]
  simp only [Nat.mod_eq_of_lt hlt]
  rcases Nat.eq_zero_or_pos (i * 65535 / n) with h | h
  · rw [h]; simp
  · rw [if_pos h]; omega

theorem startHue_step (i n : Nat) (hn : 0 < n) :
    i * 65535 / n + 65535 / n ≤ (i + 1) * 65535 / n := by
  have h := div_add_div_le (i * 65535) 65535 n hn
  have he : i * 65535 + 65535 = (i + 1) * 65535 := by ring
  rw [he] at h
  exact h

theorem startHue_base (n : Nat) (hn : 2 ≤ n) (hn2 : n ≤ 32767) : 2 ≤ 65535 / n := by
  rw [Nat.le_div_iff_mul_le (by omega)]
  omega

theorem startHue_strict (n i j : Nat) (hij : i < j) (hj : j < n) (hn2 : n ≤ 32767) :
    startHue i n < startHue j n := by
  have hn : 0 < n := by omega
  have hn2' : 2 ≤ n := by omega
  have hq : 2 ≤ 65535 / n := startHue_base n hn2' hn2
  rw [startHue_eq i n (by omega), startHue_eq j n hj]
  have hstep := startHue_step i n hn
  have hmono : (i + 1) * 65535 / n ≤ j * 65535 / n :=
    Nat.div_le_div_right (Nat.mul_le_mul_right _ (by omega))
  have hAC : i * 65535 / n + 1 < j * 65535 / n := by omega
  have h1 : 1 ≤ j * 65535 / n :=
    le_trans (Nat.succ_le_succ (Nat.zero_le _)) (Nat.le_of_lt hAC)
  rw [Nat.max_eq_right h1]
  rcases Nat.le_total (i * 65535 / n) 1 with h | h
  · rw [Nat.max_eq_left h]
    exact lt_of_le_of_lt (Nat.succ_le_succ (Nat.zero_le _)) hAC
  · rw [Nat.max_eq_right h]
    exact lt_of_le_of_lt (Nat.le_succ _) hAC

/-- C4 counterexample: with three groups the assigned start angles are 1
(bumped from 0), 21845 and 43690; the cyclic gap list is
[21844, 21845, 21847], so the minimum cyclic gap is 21844, strictly less
than WHEEL_SIZE/N = 65535/3 = 21845 — the zero-angle bump shortens the
first gap, so the minimum is not exactly WHEEL_SIZE/N. -/
theorem C4_counterexample :
    hueGaps 3 = [21844, 21845, 21847] ∧
    (List.range 3).map (fun i => startHue i 3) = [1, 21845, 43690] ∧
    21844 ∈ hueGaps 3 ∧ 21844 < 65535 / 3 := by decide

/-- C4 amended: for 1 ≤ N ≤ 32767 groups, the group at sorted index i is
assigned the angle max(1, ⌊i·65535/N⌋) — the claimed formula with the
zero angle replaced by the minimum positive angle; the angles strictly
increase with the index, angle 0 never occurs, and for N ≥ 2 the minimum
cyclic gap between adjacent assigned angles is exactly ⌊65535/N⌋ − 1 (one
less than WHEEL_SIZE/N, because of the bump of angle 0 to 1). -/
theorem C4_amended_group_offsets (n : Nat) (h1 : 1 ≤ n) (h2 : n ≤ 32767) :
    (∀ i, i < n → startHue i n = max 1 (i * 65535 / n)) ∧
    (∀ i j, i < j → j < n → startHue i n < startHue j n) ∧
    (∀ i, i < n → startHue i n ≠ 0) ∧
    (2 ≤ n →
      (65535 / n - 1) ∈ hueGaps n ∧ ∀ g ∈ hueGaps n, 65535 / n - 1 ≤ g) := by
  have hn : 0 < n := h1
  refine ⟨fun i hi => startHue_eq i n hi, fun i j hij hj => startHue_strict n i j hij hj h2,
    fun i hi => ?_, fun hn2 => ?_⟩
  · rw [startHue_eq i n hi]; omega
  · have hq : 2 ≤ 65535 / n := startHue_base n hn2 h2
    have hfirst : startHue 1 n - startHue 0 n = 65535 / n - 1 := by
      rw [startHue_eq 1 n (by omega), startHue_eq 0 n (by omega)]
      simp only [Nat.one_mul, Nat.zero_mul, Nat.zero_div]
      omega
    constructor
    · unfold hueGaps
      refine List.mem_append_left _ ?_
      rw [← hfirst]
      exact List.mem_map.mpr ⟨0, List.mem_range.mpr (by omega), by norm_num⟩
    · intro g hg
      unfold hueGaps at hg
      rcases List.mem_append.mp hg with hg | hg
      · obtain ⟨i, hi, hgi⟩ := List.mem_map.mp hg
        have hi' : i < n - 1 := List.mem_range.mp hi
        rcases Nat.eq_zero_or_pos i with h0 | hpos
        · subst h0; norm_num at hgi; omega
        · -- interior gap: at least ⌊65535/n⌋
          have hstep := startHue_step i n hn
          rw [startHue_eq (i + 1) n (by omega), startHue_eq i n (by omega)] at hgi
          have hvi : 65535 / n ≤ i * 65535 / n := by
            calc 65535 / n = 1 * 65535 / n := by norm_num
              _ ≤ i * 65535 / n :=
                Nat.div_le_div_right (Nat.mul_le_mul_right _ hpos)
          omega
      · -- wrap-around gap
        have hg' : g = 65536 - startHue (n - 1) n + startHue 0 n := by
          simpa using hg
        have hlast : startHue (n - 1) n = (n - 1) * 65535 / n := by
          rw [startHue_eq (n - 1) n (by omega)]
          have : 65535 / n ≤ (n - 1) * 65535 / n := by
            calc 65535 / n = 1 * 65535 / n := by norm_num
              _ ≤ (n - 1) * 65535 / n :=
                Nat.div_le_div_right (Nat.mul_le_mul_right _ (by omega))
          omega
        have hbound : (n - 1) * 65535 / n + 65535 / n ≤ 65535 := by
          have h := div_add_div_le ((n - 1) * 65535) 65535 n hn
          have he : (n - 1) * 65535 + 65535 = n * 65535 := by
            have : 1 ≤ n := h1
            nlinarith [Nat.sub_add_cancel this]
          rw [he, Nat.mul_div_cancel_left 65535 hn] at h
          exact h
        have h0 : startHue 0 n = 1 := by
          rw [startHue_eq 0 n (by omega)]; simp
        omega

/-- Witness for C4 amended at N = 3: the formula, strict increase, the
nonzero angle, and the minimum-gap value, at concrete indices. -/
theorem C4_amended_witness :
    1 ≤ 3 ∧ 3 ≤ 32767 ∧ startHue 0 3 = max 1 (0 * 65535 / 3) ∧
    startHue 0 3 < startHue 1 3 ∧ startHue 1 3 ≠ 0 ∧
    (65535 / 3 - 1) ∈ hueGaps 3 :=
  ⟨by decide, by decide,
    (C4_amended_group_offsets 3 (by decide) (by decide)).1 0 (by decide),
    (C4_amended_group_offsets 3 (by decide) (by decide)).2.1 0 1 (by decide) (by decide),
    (C4_amended_group_offsets 3 (by decide) (by decide)).2.2.1 1 (by decide),
    ((C4_amended_group_offsets 3 (by decide) (by decide)).2.2.2 (by decide)).1⟩

/-! ## C8: all-zero collapse -/

/-- C8: when overwriting the selected channel yields the triple (0,0,0),
`SetPosition` issues exactly one write, a power-off (`On:false`, no color
fields), instead of a color write; and `GetPosition` on a powered-off
fixture returns 0 with no error, for any channel. -/
theorem C8_all_zero_collapse
    (dec : List Int → Nat → Nat × Nat × Nat) (enc : Nat → Nat → Nat → Int × Int)
    (channel : String) (id pos : Nat) (σ : Sim) (d : HState)
    (hpos : pos ≤ 255) (hd : σ.lights id = some d) :
    (overwriteChannel channel (dec d.xy d.bri) (pos % 256) = (0, 0, 0) →
      (lcSetPosition dec enc channel id noFail pos σ).1.writeLog =
        σ.writeLog ++ [(id, { isOn := false })] ∧
      (lcSetPosition dec enc channel id noFail pos σ).2 = none) ∧
    (d.isOn = false →
      (lcGetPosition dec channel id noFail σ).1 = 0 ∧
      (lcGetPosition dec channel id noFail σ).2.2 = none) := by
  have hg1 : (simGet noFail id σ).1 = some d := by
    rw [simGet_fst noFail id σ rfl, hd]
  have hg2 : (simGet noFail id σ).2.lights id = some d := by
    rw [simGet_snd]; exact hd
  constructor
  · intro h
    unfold lcSetPosition
    rw [if_neg (by omega)]
    simp only [hg1]
    rw [h]
    have hmax : maxUint8 (0, 0, 0).1 (0, 0, 0).2.1 (0, 0, 0).2.2 = 0 := by decide
    rw [hmax]
    simp only [if_pos rfl]
    have hset := simSet_ok noFail id { isOn := false } (simGet noFail id σ).2 d rfl hg2
    rw [hset.1]
    simp only [if_true]
    refine ⟨?_, trivial⟩
    rw [simSet_writeLog, simGet_snd]
  · intro hOn
    unfold lcGetPosition
    simp only [hg1]
    rw [if_pos hOn]
    exact ⟨rfl, rfl⟩

/-- Witness for C8: with a codec decoding to black, setting the red
channel of light 1 to 0 powers the light off, and reading a channel of
the (off) light returns 0. -/
theorem C8_witness :
    overwriteChannel "red" (decZero [] 0) (0 % 256) = (0, 0, 0) ∧
    HState.isOn {} = false ∧
    (lcSetPosition decZero encZero "red" 1 noFail 0 (simOne {})).1.writeLog =
      (simOne {}).writeLog ++ [(1, { isOn := false })] ∧
    (lcGetPosition decZero "red" 1 noFail (simOne {})).1 = 0 := by
  have h := C8_all_zero_collapse decZero encZero "red" 1 0 (simOne {}) {}
    (by decide) (by decide)
  exact ⟨by decide, by decide, (h.1 (by decide)).1, (h.2 (by decide)).1⟩

/-! ## Dance activation: write-sequence and preservation lemmas -/

theorem isSome_of_map_ctxy {a b : Option HState} (h : a.map ctxy = b.map ctxy) :
    a.isSome = b.isSome := by
  cases a <;> cases b <;> simp_all

theorem danceLightLoop_noFail (h : Nat) (ids : List Nat) :
    ∀ σ : Sim, (∀ id ∈ ids, (σ.lights id).isSome) →
      (danceLightLoop noFail h ids σ).2 = none ∧
      (danceLightLoop noFail h ids σ).1.writeLog =
        σ.writeLog ++ ids.flatMap (fun id => [(id, danceWrite1 h), (id, danceWrite2)]) ∧
      (∀ j, ((danceLightLoop noFail h ids σ).1.lights j).map ctxy =
        (σ.lights j).map ctxy) := by
  induction ids with
  | nil => intro σ _; simp [danceLightLoop]
  | cons id rest ih =>
    intro σ hpres
    obtain ⟨d, hd⟩ := Option.isSome_iff_exists.mp (hpres id (by simp))
    have hg1 : (simGet noFail id σ).1 = some d := by
      rw [simGet_fst noFail id σ rfl, hd]
    have hg2 : (simGet noFail id σ).2.lights id = some d := by
      rw [simGet_snd]; exact hd
    have hset1 := simSet_ok noFail id (danceWrite1 h) (simGet noFail id σ).2 d rfl hg2
    have hset2 := simSet_ok noFail id danceWrite2
      (simSet noFail id (danceWrite1 h) (simGet noFail id σ).2).2
      (applyWrite d (danceWrite1 h)) rfl (by rw [hset1.2]; simp)
    have hmap1 : ∀ j,
        ((simSet noFail id (danceWrite1 h) (simGet noFail id σ).2).2.lights j).map ctxy =
          (σ.lights j).map ctxy := by
      intro j
      rw [simSet_ctxy noFail id (danceWrite1 h) _ rfl rfl j, simGet_snd]
    have hmap2 : ∀ j,
        ((simSet noFail id danceWrite2
            (simSet noFail id (danceWrite1 h) (simGet noFail id σ).2).2).2.lights j).map ctxy =
          (σ.lights j).map ctxy := by
      intro j
      rw [simSet_ctxy noFail id danceWrite2 _ rfl rfl j]
      exact hmap1 j
    have hpres2 : ∀ id' ∈ rest,
        (((simSet noFail id danceWrite2
            (simSet noFail id (danceWrite1 h) (simGet noFail id σ).2).2).2).lights id').isSome := by
      intro id' hid'
      rw [isSome_of_map_ctxy (hmap2 id')]
      exact hpres id' (by simp [hid'])
    have hrec := ih _ hpres2
    unfold danceLightLoop
    simp only [hg1, hset1.1, hset2.1, if_true]
    refine ⟨hrec.1, ?_, ?_⟩
    · rw [hrec.2.1, simSet_writeLog, simSet_writeLog, simGet_snd]
      simp
    · intro j
      rw [hrec.2.2 j]
      exact hmap2 j

theorem danceKeyLoop_noFail (groups : List (String × List Nat)) (n : Nat)
    (keys : List String) :
    ∀ (i : Nat) (σ : Sim),
      (∀ id ∈ keys.flatMap (fun k => lookupGroup groups k), (σ.lights id).isSome) →
      (danceKeyLoop noFail groups n i keys σ).2 = none ∧
      (danceKeyLoop noFail groups n i keys σ).1.writeLog =
        σ.writeLog ++ danceWriteSeqKeys groups n i keys ∧
      (∀ j, ((danceKeyLoop noFail groups n i keys σ).1.lights j).map ctxy =
        (σ.lights j).map ctxy) := by
  induction keys with
  | nil => intro i σ _; simp [danceKeyLoop, danceWriteSeqKeys]
  | cons k rest ih =>
    intro i σ hpres
    have hpres1 : ∀ id ∈ lookupGroup groups k, (σ.lights id).isSome := by
      intro id hid
      exact hpres id (by simp [hid])
    have hinner := danceLightLoop_noFail (startHue i n) (lookupGroup groups k) σ hpres1
    have hpres2 : ∀ id ∈ rest.flatMap (fun k' => lookupGroup groups k'),
        ((danceLightLoop noFail (startHue i n) (lookupGroup groups k) σ).1.lights id).isSome := by
      intro id hid
      rw [isSome_of_map_ctxy (hinner.2.2 id)]
      exact hpres id (by simp only [List.flatMap_cons, List.mem_append]; exact Or.inr hid)
    have hrec := ih (i + 1) _ hpres2
    unfold danceKeyLoop
    simp only [hinner.1]
    refine ⟨hrec.1, ?_, ?_⟩
    · rw [hrec.2.1, hinner.2.1]
      simp [danceWriteSeqKeys]
    · intro j
      rw [hrec.2.2 j]
      exact hinner.2.2 j

/-! ## saveState characterization -/

theorem saveStateLoop_ok (fail : Nat → Bool) (ids : List Nat) :
    ∀ (c : Controller) (σ : Sim),
      (∀ id ∈ ids, (σ.lights id).isSome) →
      (∀ k, σ.calls ≤ k → k < σ.calls + ids.length → fail k = false) →
      (saveStateLoop fail ids c σ).2.2 = none ∧
      (saveStateLoop fail ids c σ).1 =
        { c with savedStates := buildSnapLoop σ.lights ids c.savedStates } ∧
      (saveStateLoop fail ids c σ).2.1.lights = σ.lights ∧
      (saveStateLoop fail ids c σ).2.1.calls = σ.calls + ids.length ∧
      (saveStateLoop fail ids c σ).2.1.getLog = σ.getLog ++ ids ∧
      (saveStateLoop fail ids c σ).2.1.writeLog = σ.writeLog := by
  induction ids with
  | nil =>
    intro c σ _ _
    simp [saveStateLoop, buildSnapLoop]
  | cons id rest ih =>
    intro c σ hpres hwin
    simp only [List.length_cons] at hwin
    obtain ⟨d, hd⟩ := Option.isSome_iff_exists.mp (hpres id (by simp))
    have hf : fail σ.calls = false := hwin σ.calls (le_refl _) (by omega)
    have hg1 : (simGet fail id σ).1 = some d := by rw [simGet_fst fail id σ hf, hd]
    have hrec := ih { c with savedStates := insertAssoc id d c.savedStates }
      (simGet fail id σ).2
      (by intro id' hid'; rw [simGet_snd]; exact hpres id' (by simp [hid']))
      (by intro k hk1 hk2
          rw [simGet_snd] at hk1 hk2
          dsimp only at hk1 hk2
          exact hwin k (by omega) (by omega))
    unfold saveStateLoop
    simp only [hg1]
    rw [simGet_snd]
    rw [simGet_snd] at hrec
    dsimp only at hrec
    refine ⟨hrec.1, ?_, hrec.2.2.1, ?_, ?_, hrec.2.2.2.2.2⟩
    · rw [hrec.2.1]
      have hsnap : buildSnapLoop σ.lights (id :: rest) c.savedStates =
          buildSnapLoop σ.lights rest (insertAssoc id d c.savedStates) := by
        conv_lhs => rw [buildSnapLoop]
        rw [hd]
      rw [hsnap]
    · rw [hrec.2.2.2.1]; simp; omega
    · rw [hrec.2.2.2.2.1]; simp

theorem saveState_ok (fail : Nat → Bool) (ids : List Nat) (c : Controller) (σ : Sim)
    (hpres : ∀ id ∈ ids, (σ.lights id).isSome)
    (hwin : ∀ k, σ.calls ≤ k → k < σ.calls + ids.length → fail k = false) :
    (saveState fail ids c σ).2.2 = none ∧
    (saveState fail ids c σ).1 = { c with savedStates := buildSnap σ.lights ids } ∧
    (saveState fail ids c σ).2.1.lights = σ.lights ∧
    (saveState fail ids c σ).2.1.calls = σ.calls + ids.length ∧
    (saveState fail ids c σ).2.1.getLog = σ.getLog ++ ids ∧
    (saveState fail ids c σ).2.1.writeLog = σ.writeLog := by
  unfold saveState buildSnap
  exact saveStateLoop_ok fail ids { c with savedStates := [] } σ hpres hwin

/-! ## C5: cycle activation write sequence -/

theorem activateDance_noFail (groups : List (String × List Nat)) (pos : Nat)
    (c : Controller) (σ : Sim)
    (hpres : ∀ id ∈ flattenDanceGroups groups, (σ.lights id).isSome) :
    (activateDance noFail groups pos c σ).2.2 = none ∧
    (activateDance noFail groups pos c σ).1 = { c with position := pos } ∧
    (activateDance noFail groups pos c σ).2.1.writeLog =
      σ.writeLog ++ danceWriteSeq groups ∧
    (∀ j, ((activateDance noFail groups pos c σ).2.1.lights j).map ctxy =
      (σ.lights j).map ctxy) := by
  have hk := danceKeyLoop_noFail groups (sortedKeys groups).length (sortedKeys groups)
    0 σ hpres
  unfold activateDance
  simp only [hk.1]
  exact ⟨trivial, trivial, hk.2.1, hk.2.2⟩

theorem modeSetPosition1_eq (fail : Nat → Bool) (c : Controller) (σ : Sim)
    (h : (saveState fail (flattenDanceGroups c.dance) c σ).2.2 = none) :
    modeSetPosition fail 1 c σ =
      activateDance fail c.dance 1 (saveState fail (flattenDanceGroups c.dance) c σ).1
        (saveState fail (flattenDanceGroups c.dance) c σ).2.1 := by
  unfold modeSetPosition
  rw [if_neg (by decide), if_neg (by decide)]
  simp only [show lightIDsForPosition c 1 = flattenDanceGroups c.dance from rfl, h]
  rfl

theorem modeSetPosition1_noFail (c : Controller) (σ : Sim)
    (hpres : ∀ id ∈ flattenDanceGroups c.dance, (σ.lights id).isSome) :
    (modeSetPosition noFail 1 c σ).2.2 = none ∧
    (modeSetPosition noFail 1 c σ).1 =
      { c with savedStates := buildSnap σ.lights (flattenDanceGroups c.dance),
               position := 1 } ∧
    (modeSetPosition noFail 1 c σ).2.1.writeLog = σ.writeLog ++ danceWriteSeq c.dance ∧
    (∀ j, ((modeSetPosition noFail 1 c σ).2.1.lights j).map ctxy =
      (σ.lights j).map ctxy) := by
  have hsave := saveState_ok noFail (flattenDanceGroups c.dance) c σ hpres
    (fun k _ _ => rfl)
  have heq := modeSetPosition1_eq noFail c σ hsave.1
  have hpres1 : ∀ id ∈ flattenDanceGroups c.dance,
      (((saveState noFail (flattenDanceGroups c.dance) c σ).2.1).lights id).isSome := by
    intro id hid
    rw [hsave.2.2.1]
    exact hpres id hid
  have hdance := activateDance_noFail c.dance 1
    (saveState noFail (flattenDanceGroups c.dance) c σ).1
    (saveState noFail (flattenDanceGroups c.dance) c σ).2.1 hpres1
  rw [heq]
  refine ⟨hdance.1, ?_, ?_, ?_⟩
  · rw [hdance.2.1, hsave.2.1]
  · rw [hdance.2.2.1, hsave.2.2.2.2.2]
  · intro j
    rw [hdance.2.2.2 j, hsave.2.2.1]

/-- C5 counterexample: a concrete cycle activation of one group with one
fixture issues as its first write the hue/saturation seed whose effect
field is empty — the write does not set the effect to "none" as the claim
states (the effect field is simply absent from that write). -/
theorem C5_counterexample :
    (modeSetPosition noFail 1 { dance := [("g", [1])] } (simOne {})).2.1.writeLog =
      [(1, danceWrite1 1), (1, danceWrite2)] ∧
    (danceWrite1 1).effect = "" ∧ ¬ (danceWrite1 1).effect = "none" := by decide

/-- C5 amended: during a successful CYCLE activation, every fixture of
every group receives exactly two sequential writes, in order: first the
seed write carrying the group starting hue, saturation 254 and power on —
with no effect field (empty, hence omitted on the wire, rather than the
explicit "none" of the original claim) — and then the write that turns on
the colorloop effect with power on; the two writes are separate entries
of the write log, never combined. -/
theorem C5_amended_two_phase_writes (c : Controller) (σ : Sim)
    (hpres : ∀ id ∈ flattenDanceGroups c.dance, (σ.lights id).isSome) :
    (modeSetPosition noFail 1 c σ).2.2 = none ∧
    (modeSetPosition noFail 1 c σ).2.1.writeLog =
      σ.writeLog ++ danceWriteSeq c.dance ∧
    (∀ h, danceWrite1 h = { isOn := true, hue := h, sat := 254 }) ∧
    danceWrite2 = { isOn := true, effect := "colorloop" } := by
  have hm := modeSetPosition1_noFail c σ hpres
  exact ⟨hm.1, hm.2.2.1, fun _ => rfl, rfl⟩

/-- Witness for C5 amended: the concrete one-group activation produces
exactly the prescribed two-write sequence. -/
theorem C5_witness :
    (modeSetPosition noFail 1 { dance := [("g", [1])] } (simOne {})).2.2 = none ∧
    (modeSetPosition noFail 1 { dance := [("g", [1])] } (simOne {})).2.1.writeLog =
      (simOne {}).writeLog ++ danceWriteSeq [("g", [1])] :=
  ⟨(C5_amended_two_phase_writes { dance := [("g", [1])] } (simOne {}) (by decide)).1,
    (C5_amended_two_phase_writes { dance := [("g", [1])] } (simOne {}) (by decide)).2.1⟩

/-! ## C6: fail-fast activation -/

theorem simSet_fst_false (fail : Nat → Bool) (id : Nat) (s : HState) (σ : Sim)
    (hf : fail σ.calls = true) : (simSet fail id s σ).1 = false := by
  unfold simSet; rw [hf]; rfl

theorem FailFast_comp {fail : Nat → Bool} {σ σ1 σ2 : Sim} {e : Option HueErr}
    (h1 : FailFast fail σ σ1 none) (h2 : FailFast fail σ1 σ2 e) :
    FailFast fail σ σ2 e := by
  obtain ⟨hle1, hn1, _⟩ := h1
  obtain ⟨hle2, hn2, hs2⟩ := h2
  refine ⟨le_trans hle1 hle2, ?_, ?_⟩
  · intro he k hk1 hk2
    by_cases hk : k < σ1.calls
    · exact hn1 rfl k hk1 hk
    · exact hn2 he k (by omega) hk2
  · intro he
    obtain ⟨hlt, hfail, hwin⟩ := hs2 he
    refine ⟨by omega, hfail, ?_⟩
    intro k hk1 hk2
    by_cases hk : k < σ1.calls
    · exact hn1 rfl k hk1 hk
    · exact hwin k (by omega) hk2

theorem FF_step_ok {fail : Nat → Bool} {σ : Sim} (σ' : Sim)
    (hc : σ'.calls = σ.calls + 1) (hf : fail σ.calls = false) :
    FailFast fail σ σ' none := by
  refine ⟨by omega, ?_, by simp⟩
  intro _ k hk1 hk2
  rw [hc] at hk2
  have hk : k = σ.calls := by omega
  rw [hk]; exact hf

theorem FF_step_err {fail : Nat → Bool} {σ : Sim} (σ' : Sim) (e : HueErr)
    (hc : σ'.calls = σ.calls + 1) (hf : fail σ.calls = true) :
    FailFast fail σ σ' (some e) := by
  refine ⟨by omega, by simp, ?_⟩
  intro _
  refine ⟨by omega, ?_, ?_⟩
  · rw [hc]; simpa using hf
  · intro k hk1 hk2
    rw [hc] at hk2
    exfalso; omega

theorem FF_refl {fail : Nat → Bool} {σ : Sim} : FailFast fail σ σ none := by
  refine ⟨le_refl _, ?_, by simp⟩
  intro _ k hk1 hk2
  exfalso; omega

theorem saveStateLoop_FF (fail : Nat → Bool) (ids : List Nat) :
    ∀ (c : Controller) (σ : Sim), (∀ id ∈ ids, (σ.lights id).isSome) →
      FailFast fail σ (saveStateLoop fail ids c σ).2.1 (saveStateLoop fail ids c σ).2.2 ∧
      (saveStateLoop fail ids c σ).1.position = c.position ∧
      (saveStateLoop fail ids c σ).1.dance = c.dance ∧
      (saveStateLoop fail ids c σ).2.1.lights = σ.lights := by
  induction ids with
  | nil =>
    intro c σ _
    exact ⟨FF_refl, rfl, rfl, rfl⟩
  | cons id rest ih =>
    intro c σ hpres
    obtain ⟨d, hd⟩ := Option.isSome_iff_exists.mp (hpres id (by simp))
    unfold saveStateLoop
    cases hf : fail σ.calls with
    | true =>
      have hg1 : (simGet fail id σ).1 = none := by unfold simGet; rw [hf]; rfl
      simp only [hg1]
      refine ⟨?_, by trivial, by trivial, by rw [simGet_snd]⟩
      exact FF_step_err _ _ (by rw [simGet_snd]) hf
    | false =>
      have hg1 : (simGet fail id σ).1 = some d := by rw [simGet_fst fail id σ hf, hd]
      simp only [hg1]
      have hrec := ih { c with savedStates := insertAssoc id d c.savedStates }
        (simGet fail id σ).2
        (by intro id' hid'; rw [simGet_snd]; exact hpres id' (by simp [hid']))
      refine ⟨?_, hrec.2.1, hrec.2.2.1, by rw [hrec.2.2.2, simGet_snd]⟩
      exact FailFast_comp (FF_step_ok _ (by rw [simGet_snd]) hf) hrec.1

theorem danceLightLoop_FF (fail : Nat → Bool) (h : Nat) (ids : List Nat) :
    ∀ σ : Sim, (∀ id ∈ ids, (σ.lights id).isSome) →
      FailFast fail σ (danceLightLoop fail h ids σ).1 (danceLightLoop fail h ids σ).2 ∧
      (∀ j, ((danceLightLoop fail h ids σ).1.lights j).isSome = (σ.lights j).isSome) := by
  induction ids with
  | nil => intro σ _; exact ⟨FF_refl, fun j => rfl⟩
  | cons id rest ih =>
    intro σ hpres
    obtain ⟨d, hd⟩ := Option.isSome_iff_exists.mp (hpres id (by simp))
    unfold danceLightLoop
    cases hf : fail σ.calls with
    | true =>
      have hg1 : (simGet fail id σ).1 = none := by unfold simGet; rw [hf]; rfl
      simp only [hg1]
      refine ⟨FF_step_err _ _ (by rw [simGet_snd]) hf, fun j => by rw [simGet_snd]⟩
    | false =>
      have hg1 : (simGet fail id σ).1 = some d := by rw [simGet_fst fail id σ hf, hd]
      simp only [hg1]
      have hgF : FailFast fail σ (simGet fail id σ).2 none :=
        FF_step_ok _ (by rw [simGet_snd]) hf
      have hgl : (simGet fail id σ).2.lights = σ.lights := by rw [simGet_snd]
      cases hf1 : fail (simGet fail id σ).2.calls with
      | true =>
        have hs1 : (simSet fail id (danceWrite1 h) (simGet fail id σ).2).1 = false :=
          simSet_fst_false _ _ _ _ hf1
        simp only [hs1, Bool.false_eq_true, if_false]
        refine ⟨FailFast_comp hgF (FF_step_err _ _ (by rw [simSet_calls]) hf1), ?_⟩
        intro j
        rw [simSet_lights_isSome, hgl]
      | false =>
        have hs1 := simSet_ok fail id (danceWrite1 h) (simGet fail id σ).2 d hf1
          (by rw [hgl]; exact hd)
        simp only [hs1.1, if_true]
        have hs1F : FailFast fail (simGet fail id σ).2
            (simSet fail id (danceWrite1 h) (simGet fail id σ).2).2 none :=
          FF_step_ok _ (by rw [simSet_calls]) hf1
        have hs1l : (simSet fail id (danceWrite1 h) (simGet fail id σ).2).2.lights id =
            some (applyWrite d (danceWrite1 h)) := by rw [hs1.2]; simp
        cases hf2 : fail (simSet fail id (danceWrite1 h) (simGet fail id σ).2).2.calls with
        | true =>
          have hs2 : (simSet fail id danceWrite2
              (simSet fail id (danceWrite1 h) (simGet fail id σ).2).2).1 = false :=
            simSet_fst_false _ _ _ _ hf2
          simp only [hs2, Bool.false_eq_true, if_false]
          refine ⟨FailFast_comp hgF (FailFast_comp hs1F
            (FF_step_err _ _ (by rw [simSet_calls]) hf2)), ?_⟩
          intro j
          rw [simSet_lights_isSome, simSet_lights_isSome, hgl]
        | false =>
          have hs2 := simSet_ok fail id danceWrite2
            (simSet fail id (danceWrite1 h) (simGet fail id σ).2).2
            (applyWrite d (danceWrite1 h)) hf2 hs1l
          simp only [hs2.1, if_true]
          have hs2F : FailFast fail
              (simSet fail id (danceWrite1 h) (simGet fail id σ).2).2
              (simSet fail id danceWrite2
                (simSet fail id (danceWrite1 h) (simGet fail id σ).2).2).2 none :=
            FF_step_ok _ (by rw [simSet_calls]) hf2
          have hrec := ih (simSet fail id danceWrite2
              (simSet fail id (danceWrite1 h) (simGet fail id σ).2).2).2
            (by
              intro id' hid'
              rw [simSet_lights_isSome, simSet_lights_isSome, hgl]
              exact hpres id' (by simp [hid']))
          refine ⟨FailFast_comp hgF (FailFast_comp hs1F (FailFast_comp hs2F hrec.1)), ?_⟩
          intro j
          rw [hrec.2 j, simSet_lights_isSome, simSet_lights_isSome, hgl]

theorem danceKeyLoop_FF (fail : Nat → Bool) (groups : List (String × List Nat)) (n : Nat)
    (keys : List String) :
    ∀ (i : Nat) (σ : Sim),
      (∀ id ∈ keys.flatMap (fun k => lookupGroup groups k), (σ.lights id).isSome) →
      FailFast fail σ (danceKeyLoop fail groups n i keys σ).1
        (danceKeyLoop fail groups n i keys σ).2 ∧
      (∀ j, ((danceKeyLoop fail groups n i keys σ).1.lights j).isSome =
        (σ.lights j).isSome) := by
  induction keys with
  | nil => intro i σ _; exact ⟨FF_refl, fun j => rfl⟩
  | cons k rest ih =>
    intro i σ hpres
    have hinner := danceLightLoop_FF fail (startHue i n) (lookupGroup groups k) σ
      (fun id hid => hpres id (by simp [hid]))
    unfold danceKeyLoop
    cases he : (danceLightLoop fail (startHue i n) (lookupGroup groups k) σ).2 with
    | some e =>
      simp only [he]
      rw [he] at hinner
      exact ⟨hinner.1, hinner.2⟩
    | none =>
      simp only [he]
      rw [he] at hinner
      have hrec := ih (i + 1)
        (danceLightLoop fail (startHue i n) (lookupGroup groups k) σ).1
        (by
          intro id hid
          rw [hinner.2 id]
          exact hpres id
            (by simp only [List.flatMap_cons, List.mem_append]; exact Or.inr hid))
      refine ⟨FailFast_comp hinner.1 hrec.1, ?_⟩
      intro j
      rw [hrec.2 j, hinner.2 j]

theorem presetLoop_FF (fail : Nat → Bool) (w : HState) (ids : List Nat) :
    ∀ σ : Sim, (∀ id ∈ ids, (σ.lights id).isSome) →
      FailFast fail σ (presetLoop fail w ids σ).1 (presetLoop fail w ids σ).2 ∧
      (∀ j, ((presetLoop fail w ids σ).1.lights j).isSome = (σ.lights j).isSome) := by
  induction ids with
  | nil => intro σ _; exact ⟨FF_refl, fun j => rfl⟩
  | cons id rest ih =>
    intro σ hpres
    obtain ⟨d, hd⟩ := Option.isSome_iff_exists.mp (hpres id (by simp))
    unfold presetLoop
    cases hf : fail σ.calls with
    | true =>
      have hg1 : (simGet fail id σ).1 = none := by unfold simGet; rw [hf]; rfl
      simp only [hg1]
      refine ⟨FF_step_err _ _ (by rw [simGet_snd]) hf, fun j => by rw [simGet_snd]⟩
    | false =>
      have hg1 : (simGet fail id σ).1 = some d := by rw [simGet_fst fail id σ hf, hd]
      simp only [hg1]
      have hgF : FailFast fail σ (simGet fail id σ).2 none :=
        FF_step_ok _ (by rw [simGet_snd]) hf
      have hgl : (simGet fail id σ).2.lights = σ.lights := by rw [simGet_snd]
      cases hf1 : fail (simGet fail id σ).2.calls with
      | true =>
        have hs1 : (simSet fail id w (simGet fail id σ).2).1 = false :=
          simSet_fst_false _ _ _ _ hf1
        simp only [hs1, Bool.false_eq_true, if_false]
        refine ⟨FailFast_comp hgF (FF_step_err _ _ (by rw [simSet_calls]) hf1), ?_⟩
        intro j
        rw [simSet_lights_isSome, hgl]
      | false =>
        have hs1 := simSet_ok fail id w (simGet fail id σ).2 d hf1 (by rw [hgl]; exact hd)
        simp only [hs1.1, if_true]
        have hs1F : FailFast fail (simGet fail id σ).2
            (simSet fail id w (simGet fail id σ).2).2 none :=
          FF_step_ok _ (by rw [simSet_calls]) hf1
        have hrec := ih (simSet fail id w (simGet fail id σ).2).2
          (by
            intro id' hid'
            rw [simSet_lights_isSome, hgl]
            exact hpres id' (by simp [hid']))
        refine ⟨FailFast_comp hgF (FailFast_comp hs1F hrec.1), ?_⟩
        intro j
        rw [hrec.2 j, simSet_lights_isSome, hgl]

theorem activateDance_FF (fail : Nat → Bool) (groups : List (String × List Nat))
    (pos : Nat) (c : Controller) (σ : Sim)
    (hpres : ∀ id ∈ flattenDanceGroups groups, (σ.lights id).isSome) :
    FailFast fail σ (activateDance fail groups pos c σ).2.1
      (activateDance fail groups pos c σ).2.2 ∧
    ((activateDance fail groups pos c σ).2.2 = none →
      (activateDance fail groups pos c σ).1 = { c with position := pos }) ∧
    ((activateDance fail groups pos c σ).2.2.isSome →
      (activateDance fail groups pos c σ).1 = c) := by
  have hk := danceKeyLoop_FF fail groups (sortedKeys groups).length (sortedKeys groups)
    0 σ hpres
  unfold activateDance
  cases he : (danceKeyLoop fail groups (sortedKeys groups).length 0 (sortedKeys groups) σ).2 with
  | none =>
    simp only [he]
    rw [he] at hk
    exact ⟨hk.1, fun _ => trivial, by simp⟩
  | some e =>
    simp only [he]
    rw [he] at hk
    exact ⟨hk.1, by simp, fun _ => trivial⟩

theorem activateDaylight_FF (fail : Nat → Bool) (ids : List Nat) (pos : Nat)
    (c : Controller) (σ : Sim) (hpres : ∀ id ∈ ids, (σ.lights id).isSome) :
    FailFast fail σ (activateDaylight fail ids pos c σ).2.1
      (activateDaylight fail ids pos c σ).2.2 ∧
    ((activateDaylight fail ids pos c σ).2.2 = none →
      (activateDaylight fail ids pos c σ).1 = { c with position := pos }) ∧
    ((activateDaylight fail ids pos c σ).2.2.isSome →
      (activateDaylight fail ids pos c σ).1 = c) := by
  have hk := presetLoop_FF fail daylightWrite ids σ hpres
  unfold activateDaylight
  cases he : (presetLoop fail daylightWrite ids σ).2 with
  | none =>
    simp only [he]
    rw [he] at hk
    exact ⟨hk.1, fun _ => trivial, by simp⟩
  | some e =>
    simp only [he]
    rw [he] at hk
    exact ⟨hk.1, by simp, fun _ => trivial⟩

theorem activateWarm_FF (fail : Nat → Bool) (ids : List Nat) (pos : Nat)
    (c : Controller) (σ : Sim) (hpres : ∀ id ∈ ids, (σ.lights id).isSome) :
    FailFast fail σ (activateWarm fail ids pos c σ).2.1
      (activateWarm fail ids pos c σ).2.2 ∧
    ((activateWarm fail ids pos c σ).2.2 = none →
      (activateWarm fail ids pos c σ).1 = { c with position := pos }) ∧
    ((activateWarm fail ids pos c σ).2.2.isSome →
      (activateWarm fail ids pos c σ).1 = c) := by
  have hk := presetLoop_FF fail warmWrite ids σ hpres
  unfold activateWarm
  cases he : (presetLoop fail warmWrite ids σ).2 with
  | none =>
    simp only [he]
    rw [he] at hk
    exact ⟨hk.1, fun _ => trivial, by simp⟩
  | some e =>
    simp only [he]
    rw [he] at hk
    exact ⟨hk.1, by simp, fun _ => trivial⟩

theorem saveState_FF (fail : Nat → Bool) (ids : List Nat) (c : Controller) (σ : Sim)
    (hpres : ∀ id ∈ ids, (σ.lights id).isSome) :
    FailFast fail σ (saveState fail ids c σ).2.1 (saveState fail ids c σ).2.2 ∧
    (saveState fail ids c σ).1.position = c.position ∧
    (saveState fail ids c σ).1.dance = c.dance ∧
    (saveState fail ids c σ).2.1.lights = σ.lights :=
  saveStateLoop_FF fail ids { c with savedStates := [] } σ hpres

theorem modeSetPosition_err_eq (fail : Nat → Bool) (pos : Nat) (c : Controller) (σ : Sim)
    (h1 : 1 ≤ pos) (h3 : pos ≤ 3) (e : HueErr)
    (h : (saveState fail (lightIDsForPosition c pos) c σ).2.2 = some e) :
    modeSetPosition fail pos c σ =
      ((saveState fail (lightIDsForPosition c pos) c σ).1,
        (saveState fail (lightIDsForPosition c pos) c σ).2.1, some e) := by
  interval_cases pos <;>
    (unfold modeSetPosition
     rw [if_neg (by decide), if_neg (by decide)]
     simp only [h])

theorem modeSetPosition2_eq (fail : Nat → Bool) (c : Controller) (σ : Sim)
    (h : (saveState fail c.daylight c σ).2.2 = none) :
    modeSetPosition fail 2 c σ =
      activateDaylight fail c.daylight 2 (saveState fail c.daylight c σ).1
        (saveState fail c.daylight c σ).2.1 := by
  unfold modeSetPosition
  rw [if_neg (by decide), if_neg (by decide)]
  simp only [show lightIDsForPosition c 2 = c.daylight from rfl, h]
  rfl

theorem modeSetPosition3_eq (fail : Nat → Bool) (c : Controller) (σ : Sim)
    (h : (saveState fail c.warm c σ).2.2 = none) :
    modeSetPosition fail 3 c σ =
      activateWarm fail c.warm 3 (saveState fail c.warm c σ).1
        (saveState fail c.warm c σ).2.1 := by
  unfold modeSetPosition
  rw [if_neg (by decide), if_neg (by decide)]
  simp only [show lightIDsForPosition c 3 = c.warm from rfl, h]
  rfl

/-- C6: every mode-entering request (positions 1–3) is fail-fast: on
success the position field is set to the requested mode and no bridge
call in the run failed; on error the position field is unchanged, the
very last bridge call attempted is the failing one (so the first error
is returned immediately and no further reads or writes are attempted for
the remaining fixtures), and every earlier call succeeded. -/
theorem C6_activation_fail_fast (fail : Nat → Bool) (pos : Nat) (c : Controller) (σ : Sim)
    (h1 : 1 ≤ pos) (h3 : pos ≤ 3)
    (hpres : ∀ id ∈ lightIDsForPosition c pos, (σ.lights id).isSome) :
    ((modeSetPosition fail pos c σ).2.2 = none →
      (modeSetPosition fail pos c σ).1.position = pos ∧
      noOracleFail fail σ.calls (modeSetPosition fail pos c σ).2.1.calls) ∧
    ((modeSetPosition fail pos c σ).2.2.isSome →
      (modeSetPosition fail pos c σ).1.position = c.position ∧
      σ.calls < (modeSetPosition fail pos c σ).2.1.calls ∧
      fail ((modeSetPosition fail pos c σ).2.1.calls - 1) = true ∧
      noOracleFail fail σ.calls ((modeSetPosition fail pos c σ).2.1.calls - 1)) := by
  have hsv := saveState_FF fail (lightIDsForPosition c pos) c σ hpres
  cases he : (saveState fail (lightIDsForPosition c pos) c σ).2.2 with
  | some e =>
    rw [modeSetPosition_err_eq fail pos c σ h1 h3 e he]
    rw [he] at hsv
    constructor
    · intro hcontra; exact absurd hcontra (by simp)
    · intro _
      obtain ⟨hlt, hfail, hwin⟩ := hsv.1.2.2 (by simp)
      exact ⟨hsv.2.1, hlt, hfail, hwin⟩
  | none =>
    rw [he] at hsv
    have hpres1 : ∀ id ∈ lightIDsForPosition c pos,
        (((saveState fail (lightIDsForPosition c pos) c σ).2.1).lights id).isSome := by
      intro id hid
      rw [hsv.2.2.2]
      exact hpres id hid
    interval_cases pos
    · -- dance
      rw [show lightIDsForPosition c 1 = flattenDanceGroups c.dance from rfl] at hsv hpres1 he
      have heq := modeSetPosition1_eq fail c σ he
      have hax := activateDance_FF fail c.dance 1
        (saveState fail (flattenDanceGroups c.dance) c σ).1
        (saveState fail (flattenDanceGroups c.dance) c σ).2.1 hpres1
      have hFF := FailFast_comp hsv.1 hax.1
      rw [heq]
      constructor
      · intro hnone
        refine ⟨?_, hFF.2.1 hnone⟩
        rw [hax.2.1 hnone]
      · intro hsome
        obtain ⟨hlt, hfail, hwin⟩ := hFF.2.2 hsome
        refine ⟨?_, hlt, hfail, hwin⟩
        rw [hax.2.2 hsome, hsv.2.1]
    · -- daylight
      rw [show lightIDsForPosition c 2 = c.daylight from rfl] at hsv hpres1 he
      have heq := modeSetPosition2_eq fail c σ he
      have hax := activateDaylight_FF fail c.daylight 2
        (saveState fail c.daylight c σ).1
        (saveState fail c.daylight c σ).2.1 hpres1
      have hFF := FailFast_comp hsv.1 hax.1
      rw [heq]
      constructor
      · intro hnone
        refine ⟨?_, hFF.2.1 hnone⟩
        rw [hax.2.1 hnone]
      · intro hsome
        obtain ⟨hlt, hfail, hwin⟩ := hFF.2.2 hsome
        refine ⟨?_, hlt, hfail, hwin⟩
        rw [hax.2.2 hsome, hsv.2.1]
    · -- warm
      rw [show lightIDsForPosition c 3 = c.warm from rfl] at hsv hpres1 he
      have heq := modeSetPosition3_eq fail c σ he
      have hax := activateWarm_FF fail c.warm 3
        (saveState fail c.warm c σ).1
        (saveState fail c.warm c σ).2.1 hpres1
      have hFF := FailFast_comp hsv.1 hax.1
      rw [heq]
      constructor
      · intro hnone
        refine ⟨?_, hFF.2.1 hnone⟩
        rw [hax.2.1 hnone]
      · intro hsome
        obtain ⟨hlt, hfail, hwin⟩ := hFF.2.2 hsome
        refine ⟨?_, hlt, hfail, hwin⟩
        rw [hax.2.2 hsome, hsv.2.1]

/-- Witness for C6: with the oracle failing call index 1 (the activation
read, after the snapshot read at index 0), a CYCLE request on a one-light
controller returns an error, leaves the position at 0, and the failing
call is the last one attempted. -/
theorem C6_witness :
    (modeSetPosition (failAt 1) 1 { dance := [("g", [1])] } (simOne {})).2.2.isSome = true ∧
    (modeSetPosition (failAt 1) 1 { dance := [("g", [1])] } (simOne {})).1.position =
      Controller.position { dance := [("g", [1])] } ∧
    failAt 1 ((modeSetPosition (failAt 1) 1 { dance := [("g", [1])] } (simOne {})).2.1.calls - 1) =
      true :=
  have h := C6_activation_fail_fast (failAt 1) 1 { dance := [("g", [1])] } (simOne {})
    (by decide) (by decide) (by decide)
  ⟨by decide, (h.2 (by decide)).1, (h.2 (by decide)).2.2.1⟩

/-! ## C10: snapshot replaced wholesale even when activation fails -/

theorem modeSetPosition0_getLog (fail : Nat → Bool) (c : Controller) (σ : Sim) :
    (modeSetPosition fail 0 c σ).2.1.getLog = σ.getLog ++ c.savedStates.map Prod.fst := by
  have h0 : modeSetPosition fail 0 c σ =
      ({ c with savedStates := [], position := 0 },
        (restoreLoop fail c.savedStates none σ).1,
        (restoreLoop fail c.savedStates none σ).2) := by
    unfold modeSetPosition
    norm_num [modeNames, restoreState]
  rw [h0]
  exact restoreLoop_getLog fail c.savedStates none σ

/-- C10: when a mode-entering request fails during the activation writes
(all snapshot reads succeeded, yet the call returns an error), the
controller position is unchanged but the saved-state snapshot has already
been replaced wholesale by the freshly read pre-activation snapshot, and
a subsequent restore (position 0) iterates exactly the fixtures of that
new snapshot. -/
theorem C10_snapshot_replaced (fail : Nat → Bool) (pos : Nat) (c : Controller) (σ : Sim)
    (h1 : 1 ≤ pos) (h3 : pos ≤ 3)
    (hpres : ∀ id ∈ lightIDsForPosition c pos, (σ.lights id).isSome)
    (hwin : ∀ k, σ.calls ≤ k →
      k < σ.calls + (lightIDsForPosition c pos).length → fail k = false)
    (herr : (modeSetPosition fail pos c σ).2.2.isSome) :
    (modeSetPosition fail pos c σ).1.savedStates =
      buildSnap σ.lights (lightIDsForPosition c pos) ∧
    (modeSetPosition fail pos c σ).1.position = c.position ∧
    (∀ (fail2 : Nat → Bool) (σ2 : Sim),
      (modeSetPosition fail2 0 (modeSetPosition fail pos c σ).1 σ2).2.1.getLog =
        σ2.getLog ++ (buildSnap σ.lights (lightIDsForPosition c pos)).map Prod.fst) := by
  have hsave := saveState_ok fail (lightIDsForPosition c pos) c σ hpres hwin
  have he := hsave.1
  have hpres1 : ∀ id ∈ lightIDsForPosition c pos,
      (((saveState fail (lightIDsForPosition c pos) c σ).2.1).lights id).isSome := by
    intro id hid
    rw [hsave.2.2.1]
    exact hpres id hid
  interval_cases pos
  · rw [show lightIDsForPosition c 1 = flattenDanceGroups c.dance from rfl]
      at hsave he hpres1 ⊢
    have heq := modeSetPosition1_eq fail c σ he
    rw [heq] at herr ⊢
    have hax := activateDance_FF fail c.dance 1
      (saveState fail (flattenDanceGroups c.dance) c σ).1
      (saveState fail (flattenDanceGroups c.dance) c σ).2.1 hpres1
    rw [hax.2.2 herr, hsave.2.1]
    refine ⟨rfl, rfl, ?_⟩
    intro fail2 σ2
    rw [modeSetPosition0_getLog]
  · rw [show lightIDsForPosition c 2 = c.daylight from rfl] at hsave he hpres1 ⊢
    have heq := modeSetPosition2_eq fail c σ he
    rw [heq] at herr ⊢
    have hax := activateDaylight_FF fail c.daylight 2
      (saveState fail c.daylight c σ).1
      (saveState fail c.daylight c σ).2.1 hpres1
    rw [hax.2.2 herr, hsave.2.1]
    refine ⟨rfl, rfl, ?_⟩
    intro fail2 σ2
    rw [modeSetPosition0_getLog]
  · rw [show lightIDsForPosition c 3 = c.warm from rfl] at hsave he hpres1 ⊢
    have heq := modeSetPosition3_eq fail c σ he
    rw [heq] at herr ⊢
    have hax := activateWarm_FF fail c.warm 3
      (saveState fail c.warm c σ).1
      (saveState fail c.warm c σ).2.1 hpres1
    rw [hax.2.2 herr, hsave.2.1]
    refine ⟨rfl, rfl, ?_⟩
    intro fail2 σ2
    rw [modeSetPosition0_getLog]

/-- Witness for C10: with the oracle failing call 1 (the activation read),
the one-light CYCLE request errors out with position unchanged, yet the
snapshot now holds the freshly read state of light 1, and a subsequent
restore iterates exactly that snapshot. -/
theorem C10_witness :
    (modeSetPosition (failAt 1) 1 { dance := [("g", [1])] } (simOne {})).2.2.isSome = true ∧
    (modeSetPosition (failAt 1) 1 { dance := [("g", [1])] } (simOne {})).1.savedStates =
      buildSnap (simOne {}).lights (lightIDsForPosition { dance := [("g", [1])] } 1) ∧
    (modeSetPosition noFail 0
        (modeSetPosition (failAt 1) 1 { dance := [("g", [1])] } (simOne {})).1
        (simOne {})).2.1.getLog =
      (simOne {}).getLog ++
        (buildSnap (simOne {}).lights
          (lightIDsForPosition { dance := [("g", [1])] } 1)).map Prod.fst :=
  have h := C10_snapshot_replaced (failAt 1) 1 { dance := [("g", [1])] } (simOne {})
    (by decide) (by decide) (by decide) (by decide) (by decide)
  ⟨by decide, h.1, h.2.2 noFail (simOne {})⟩

/-! ## C2: snapshot association-list lemmas -/

theorem insertAssoc_mem_or (id : Nat) (st : HState) (l : List (Nat × HState))
    (p : Nat × HState) (hp : p ∈ insertAssoc id st l) : p = (id, st) ∨ p ∈ l := by
  induction l with
  | nil => simpa [insertAssoc] using hp
  | cons q rest ih =>
    obtain ⟨j, d⟩ := q
    unfold insertAssoc at hp
    by_cases hj : j = id
    · rw [if_pos hj] at hp
      rcases List.mem_cons.mp hp with h | h
      · exact Or.inl h
      · exact Or.inr (List.mem_cons.mpr (Or.inr h))
    · rw [if_neg hj] at hp
      rcases List.mem_cons.mp hp with h | h
      · exact Or.inr (List.mem_cons.mpr (Or.inl h))
      · rcases ih h with h' | h'
        · exact Or.inl h'
        · exact Or.inr (List.mem_cons.mpr (Or.inr h'))

theorem keys_insertAssoc (id : Nat) (st : HState) (l : List (Nat × HState)) :
    (insertAssoc id st l).map Prod.fst =
      if id ∈ l.map Prod.fst then l.map Prod.fst else l.map Prod.fst ++ [id] := by
  induction l with
  | nil => simp [insertAssoc]
  | cons q rest ih =>
    obtain ⟨j, d⟩ := q
    unfold insertAssoc
    by_cases hj : j = id
    · rw [if_pos hj]
      simp [hj]
    · rw [if_neg hj]
      simp only [List.map_cons]
      rw [ih]
      by_cases hmem : id ∈ rest.map Prod.fst
      · rw [if_pos hmem, if_pos (by simp [hmem])]
      · rw [if_neg hmem, if_neg (by simp [hmem, Ne.symm hj]), List.cons_append]

theorem keys_insertAssoc_nodup (id : Nat) (st : HState) (l : List (Nat × HState))
    (h : (l.map Prod.fst).Nodup) : ((insertAssoc id st l).map Prod.fst).Nodup := by
  rw [keys_insertAssoc]
  by_cases hmem : id ∈ l.map Prod.fst
  · rw [if_pos hmem]; exact h
  · rw [if_neg hmem]
    simp [List.nodup_append, h, hmem]

theorem buildSnapLoop_mem (lights : Nat → Option HState) (ids : List Nat) :
    ∀ (acc : List (Nat × HState)) (p : Nat × HState),
      p ∈ buildSnapLoop lights ids acc →
      p ∈ acc ∨ lights p.1 = some p.2 := by
  induction ids with
  | nil => intro acc p hp; exact Or.inl (by simpa [buildSnapLoop] using hp)
  | cons id rest ih =>
    intro acc p hp
    unfold buildSnapLoop at hp
    cases hd : lights id with
    | none => rw [hd] at hp; exact Or.inl hp
    | some st =>
      rw [hd] at hp
      rcases ih (insertAssoc id st acc) p hp with h | h
      · rcases insertAssoc_mem_or id st acc p h with h' | h'
        · right; rw [h']; exact hd
        · exact Or.inl h'
      · exact Or.inr h

theorem buildSnapLoop_keys_nodup (lights : Nat → Option HState) (ids : List Nat) :
    ∀ acc : List (Nat × HState), (acc.map Prod.fst).Nodup →
      ((buildSnapLoop lights ids acc).map Prod.fst).Nodup := by
  induction ids with
  | nil => intro acc h; simpa [buildSnapLoop] using h
  | cons id rest ih =>
    intro acc h
    unfold buildSnapLoop
    cases hd : lights id with
    | none => exact h
    | some st => exact ih _ (keys_insertAssoc_nodup id st acc h)

theorem lookupAssoc_insert_self (id : Nat) (st : HState) (l : List (Nat × HState)) :
    lookupAssoc (insertAssoc id st l) id = some st := by
  induction l with
  | nil => simp [insertAssoc, lookupAssoc]
  | cons q rest ih =>
    obtain ⟨j, d⟩ := q
    unfold insertAssoc
    by_cases hj : j = id
    · rw [if_pos hj]
      simp [lookupAssoc]
    · rw [if_neg hj]
      unfold lookupAssoc
      rw [if_neg hj]
      exact ih

theorem lookupAssoc_insert_other (id : Nat) (st : HState) (l : List (Nat × HState))
    (j : Nat) (hj : j ≠ id) :
    lookupAssoc (insertAssoc id st l) j = lookupAssoc l j := by
  induction l with
  | nil =>
    simp [insertAssoc, lookupAssoc, Ne.symm hj]
  | cons q rest ih =>
    obtain ⟨j', d⟩ := q
    unfold insertAssoc
    by_cases hj' : j' = id
    · rw [if_pos hj']
      unfold lookupAssoc
      rw [if_neg (Ne.symm hj), if_neg (by rw [hj']; exact Ne.symm hj)]
    · rw [if_neg hj']
      unfold lookupAssoc
      by_cases hb : j' = j
      · rw [if_pos hb, if_pos hb]
      · rw [if_neg hb, if_neg hb]
        exact ih

theorem buildSnapLoop_lookup (lights : Nat → Option HState) (ids : List Nat) :
    ∀ (acc : List (Nat × HState)) (j : Nat), (∀ i ∈ ids, (lights i).isSome) →
      lookupAssoc (buildSnapLoop lights ids acc) j =
        if j ∈ ids then lights j else lookupAssoc acc j := by
  induction ids with
  | nil => intro acc j _; simp [buildSnapLoop]
  | cons id rest ih =>
    intro acc j hpres
    obtain ⟨st, hd⟩ := Option.isSome_iff_exists.mp (hpres id (by simp))
    unfold buildSnapLoop
    rw [hd]
    rw [ih (insertAssoc id st acc) j (fun i hi => hpres i (by simp [hi]))]
    by_cases hjr : j ∈ rest
    · rw [if_pos hjr, if_pos (by simp [hjr])]
    · rw [if_neg hjr]
      by_cases hji : j = id
      · rw [if_pos (by simp [hji]), hji, lookupAssoc_insert_self, hd]
      · rw [if_neg (by simp [hji, hjr]), lookupAssoc_insert_other id st acc j hji]

theorem lookupAssoc_mem (l : List (Nat × HState)) (j : Nat) (st : HState)
    (h : lookupAssoc l j = some st) : (j, st) ∈ l := by
  induction l with
  | nil => simp [lookupAssoc] at h
  | cons q rest ih =>
    obtain ⟨j', d⟩ := q
    unfold lookupAssoc at h
    by_cases hj : j' = j
    · rw [if_pos hj] at h
      simp only [Option.some.injEq] at h
      exact List.mem_cons.mpr (Or.inl (by rw [hj, h]))
    · rw [if_neg hj] at h
      exact List.mem_cons.mpr (Or.inr (ih h))

/-! ## C2: per-fixture restore lemmas -/

theorem restoreLoop_other (fail : Nat → Bool) (entries : List (Nat × HState)) :
    ∀ (acc : Option HueErr) (σ : Sim) (j : Nat), j ∉ entries.map Prod.fst →
      (restoreLoop fail entries acc σ).1.lights j = σ.lights j := by
  induction entries with
  | nil => intro acc σ j _; rfl
  | cons p rest ih =>
    obtain ⟨id, st⟩ := p
    intro acc σ j hj
    have hjid : j ≠ id := by simp at hj; exact hj.1
    have hjrest : j ∉ rest.map Prod.fst := by simp at hj ⊢; exact hj.2
    unfold restoreLoop
    cases hO : (simGet fail id σ).1 with
    | none =>
      simp only [hO]
      rw [ih _ _ _ hjrest, simGet_snd]
    | some st' =>
      simp only [hO]
      split
      · split
        · rw [ih _ _ _ hjrest, simSet_lights_other _ _ _ _ _ hjid,
            simSet_lights_other _ _ _ _ _ hjid, simGet_snd]
        · rw [ih _ _ _ hjrest, simSet_lights_other _ _ _ _ _ hjid,
            simSet_lights_other _ _ _ _ _ hjid, simGet_snd]
      · rw [ih _ _ _ hjrest, simSet_lights_other _ _ _ _ _ hjid, simGet_snd]

theorem restoreLoop_perId (entries : List (Nat × HState)) :
    ∀ (acc : Option HueErr) (σ : Sim),
      (entries.map Prod.fst).Nodup →
      (∀ p ∈ entries, (σ.lights p.1).isSome) →
      (∀ p ∈ entries, ∃ d, σ.lights p.1 = some d ∧
        (restoreLoop noFail entries acc σ).1.lights p.1 =
          some (applyRestoreFn p.2 d)) ∧
      (restoreLoop noFail entries acc σ).2 = acc := by
  induction entries with
  | nil => intro acc σ _ _; exact ⟨fun p hp => absurd hp (by simp), rfl⟩
  | cons q rest ih =>
    obtain ⟨id, st⟩ := q
    intro acc σ hnodup hpres
    obtain ⟨d, hd⟩ := Option.isSome_iff_exists.mp (hpres (id, st) (by simp))
    have hg1 : (simGet noFail id σ).1 = some d := by
      rw [simGet_fst noFail id σ rfl, hd]
    have hg2 : (simGet noFail id σ).2.lights id = some d := by
      rw [simGet_snd]; exact hd
    have hset1 := simSet_ok noFail id restoreClear (simGet noFail id σ).2 d rfl hg2
    have hs1l : (simSet noFail id restoreClear (simGet noFail id σ).2).2.lights id =
        some (applyWrite d restoreClear) := by rw [hset1.2]; simp
    have hset2 := simSet_ok noFail id (restorePayload st)
      (simSet noFail id restoreClear (simGet noFail id σ).2).2
      (applyWrite d restoreClear) rfl hs1l
    have hs2l : (simSet noFail id (restorePayload st)
        (simSet noFail id restoreClear (simGet noFail id σ).2).2).2.lights id =
        some (applyRestoreFn st d) := by rw [hset2.2]; simp [applyRestoreFn]
    have hidrest : id ∉ rest.map Prod.fst := by
      simp only [List.map_cons, List.nodup_cons] at hnodup
      exact hnodup.1
    have hrestpres : ∀ p ∈ rest,
        (((simSet noFail id (restorePayload st)
          (simSet noFail id restoreClear (simGet noFail id σ).2).2).2).lights p.1).isSome := by
      intro p hp
      rw [simSet_lights_isSome, simSet_lights_isSome, simGet_snd]
      exact hpres p (by simp [hp])
    have hrestsame : ∀ p, p ∈ rest →
        ((simSet noFail id (restorePayload st)
          (simSet noFail id restoreClear (simGet noFail id σ).2).2).2).lights p.1 =
          σ.lights p.1 := by
      intro p hp
      have hne : p.1 ≠ id := by
        intro hcontra
        exact hidrest (by rw [← hcontra]; exact List.mem_map.mpr ⟨p, hp, rfl⟩)
      rw [simSet_lights_other _ _ _ _ _ hne, simSet_lights_other _ _ _ _ _ hne,
        simGet_snd]
    have hrec := ih acc
      (simSet noFail id (restorePayload st)
        (simSet noFail id restoreClear (simGet noFail id σ).2).2).2
      (by simp only [List.map_cons, List.nodup_cons] at hnodup; exact hnodup.2)
      hrestpres
    unfold restoreLoop
    simp only [hg1, hset1.1, hset2.1, if_true]
    constructor
    · intro p hp
      rcases List.mem_cons.mp hp with hph | hpt
      · subst hph
        refine ⟨d, hd, ?_⟩
        rw [restoreLoop_other noFail rest _ _ _ hidrest]
        exact hs2l
      · obtain ⟨d', hd'1, hd'2⟩ := hrec.1 p hpt
        rw [hrestsame p hpt] at hd'1
        exact ⟨d', hd'1, hd'2⟩
    · exact hrec.2

theorem bump1_ne_zero (n : Nat) : bump1 n ≠ 0 := by
  unfold bump1; split <;> simp_all

theorem applyRestoreFn_spec (st d1 : HState) (hct : d1.ct = st.ct)
    (hxy : d1.xy = st.xy) :
    (applyRestoreFn st d1).isOn = st.isOn ∧
    (applyRestoreFn st d1).bri = bump1 st.bri ∧
    (st.colorMode = "ct" → (applyRestoreFn st d1).ct = st.ct) ∧
    (st.colorMode = "xy" → (applyRestoreFn st d1).xy = st.xy) ∧
    (st.colorMode = "hs" → (applyRestoreFn st d1).hue = bump1 st.hue ∧
      (applyRestoreFn st d1).sat = bump1 st.sat) := by
  have hb := bump1_ne_zero st.bri
  unfold applyRestoreFn restorePayload
  by_cases h1 : st.colorMode = "ct"
  · rw [if_pos h1]
    refine ⟨rfl, by simp [applyWrite, hb], ?_, ?_, ?_⟩
    · intro _
      by_cases hz : st.ct = 0
      · simp [applyWrite, restoreClear, hz, hct]
      · simp [applyWrite, hz]
    · intro h2; rw [h1] at h2; exact absurd h2 (by decide)
    · intro h2; rw [h1] at h2; exact absurd h2 (by decide)
  · rw [if_neg h1]
    by_cases h2 : st.colorMode = "xy"
    · rw [if_pos h2]
      refine ⟨rfl, by simp [applyWrite, hb], ?_, ?_, ?_⟩
      · intro h3; rw [h2] at h3; exact absurd h3 (by decide)
      · intro _
        by_cases hz : st.xy = []
        · simp [applyWrite, restoreClear, hz, hxy]
        · simp [applyWrite, hz]
      · intro h3; rw [h2] at h3; exact absurd h3 (by decide)
    · rw [if_neg h2]
      by_cases h3 : st.colorMode = "hs"
      · rw [if_pos h3]
        refine ⟨rfl, by simp [applyWrite, hb], ?_, ?_, ?_⟩
        · intro h4; rw [h3] at h4; exact absurd h4 (by decide)
        · intro h4; rw [h3] at h4; exact absurd h4 (by decide)
        · intro _
          exact ⟨by simp [applyWrite, bump1_ne_zero], by simp [applyWrite, bump1_ne_zero]⟩
      · rw [if_neg h3]
        exact ⟨rfl, by simp [applyWrite, hb], fun h => absurd h h1, fun h => absurd h h2,
          fun h => absurd h h3⟩

theorem modeSetPosition0_unfold (fail : Nat → Bool) (c : Controller) (σ : Sim) :
    modeSetPosition fail 0 c σ =
      ({ c with savedStates := [], position := 0 },
        (restoreLoop fail c.savedStates none σ).1,
        (restoreLoop fail c.savedStates none σ).2) := by
  unfold modeSetPosition
  norm_num [modeNames, restoreState]

/-- C2: on a controller whose bridge calls all succeed, activating CYCLE
(position 1) and then immediately requesting NONE (position 0) leaves
every dance fixture with its pre-activation on/off flag, its brightness
(bumped to 1 when originally zero), and the color fields matching its
snapshot color-mode tag (ct for "ct", xy for "xy", hue and saturation —
each bumped to 1 when originally zero — for "hs") equal to their
pre-activation values. -/
theorem C2_restore_idempotence (c : Controller) (σ : Sim)
    (hpres : ∀ id ∈ flattenDanceGroups c.dance, (σ.lights id).isSome)
    (id : Nat) (hid : id ∈ flattenDanceGroups c.dance)
    (d0 : HState) (h0 : σ.lights id = some d0) :
    (modeSetPosition noFail 1 c σ).2.2 = none ∧
    (modeSetPosition noFail 0 (modeSetPosition noFail 1 c σ).1
        (modeSetPosition noFail 1 c σ).2.1).2.2 = none ∧
    ∃ d2 : HState,
      (modeSetPosition noFail 0 (modeSetPosition noFail 1 c σ).1
          (modeSetPosition noFail 1 c σ).2.1).2.1.lights id = some d2 ∧
      d2.isOn = d0.isOn ∧
      d2.bri = bump1 d0.bri ∧
      (d0.colorMode = "ct" → d2.ct = d0.ct) ∧
      (d0.colorMode = "xy" → d2.xy = d0.xy) ∧
      (d0.colorMode = "hs" → d2.hue = bump1 d0.hue ∧ d2.sat = bump1 d0.sat) := by
  have hm1 := modeSetPosition1_noFail c σ hpres
  have hnodup : ((buildSnap σ.lights (flattenDanceGroups c.dance)).map Prod.fst).Nodup :=
    buildSnapLoop_keys_nodup σ.lights (flattenDanceGroups c.dance) [] (by simp)
  have hmem : ∀ p ∈ buildSnap σ.lights (flattenDanceGroups c.dance),
      σ.lights p.1 = some p.2 := by
    intro p hp
    rcases buildSnapLoop_mem σ.lights (flattenDanceGroups c.dance) [] p hp with h | h
    · exact absurd h (by simp)
    · exact h
  have hlook : lookupAssoc (buildSnap σ.lights (flattenDanceGroups c.dance)) id =
      some d0 := by
    unfold buildSnap
    rw [buildSnapLoop_lookup σ.lights (flattenDanceGroups c.dance) [] id hpres,
      if_pos hid]
    exact h0
  have hentry : (id, d0) ∈ buildSnap σ.lights (flattenDanceGroups c.dance) :=
    lookupAssoc_mem _ id d0 hlook
  have hsnap1 : (modeSetPosition noFail 1 c σ).1.savedStates =
      buildSnap σ.lights (flattenDanceGroups c.dance) := by
    rw [hm1.2.1]
  have hpres1 : ∀ p ∈ buildSnap σ.lights (flattenDanceGroups c.dance),
      (((modeSetPosition noFail 1 c σ).2.1).lights p.1).isSome := by
    intro p hp
    rw [isSome_of_map_ctxy (hm1.2.2.2 p.1)]
    rw [hmem p hp]
    rfl
  have hperId := restoreLoop_perId (buildSnap σ.lights (flattenDanceGroups c.dance))
    none (modeSetPosition noFail 1 c σ).2.1 hnodup hpres1
  have hrun2 := modeSetPosition0_unfold noFail (modeSetPosition noFail 1 c σ).1
    (modeSetPosition noFail 1 c σ).2.1
  rw [hsnap1] at hrun2
  refine ⟨hm1.1, ?_, ?_⟩
  · rw [hrun2]
    exact hperId.2
  · obtain ⟨d1, hd1, hfinal⟩ := hperId.1 (id, d0) hentry
    have hctxy : (some d1).map ctxy = (some d0).map ctxy := by
      rw [← hd1, ← h0]
      exact hm1.2.2.2 id
    simp only [Option.map_some] at hctxy
    have hctxy' : ctxy d1 = ctxy d0 := by injection hctxy
    have hct : d1.ct = d0.ct := congrArg Prod.fst hctxy'
    have hxy : d1.xy = d0.xy := congrArg Prod.snd hctxy'
    have hspec := applyRestoreFn_spec d0 d1 hct hxy
    refine ⟨applyRestoreFn d0 d1, ?_, hspec.1, hspec.2.1, hspec.2.2.1, hspec.2.2.2.1,
      hspec.2.2.2.2⟩
    rw [hrun2]
    exact hfinal

/-- Witness for C2: the concrete one-fixture CYCLE-then-NONE round trip
completes with no error in either call. -/
theorem C2_witness :
    (modeSetPosition noFail 1 { dance := [("g", [1])] }
        (simOne { isOn := true, sat := 7, ct := 9, colorMode := "hs" })).2.2 = none ∧
    (modeSetPosition noFail 0
        (modeSetPosition noFail 1 { dance := [("g", [1])] }
          (simOne { isOn := true, sat := 7, ct := 9, colorMode := "hs" })).1
        (modeSetPosition noFail 1 { dance := [("g", [1])] }
          (simOne { isOn := true, sat := 7, ct := 9, colorMode := "hs" })).2.1).2.2 =
      none :=
  have h := C2_restore_idempotence { dance := [("g", [1])] }
    (simOne { isOn := true, sat := 7, ct := 9, colorMode := "hs" }) (by decide) 1
    (by decide) { isOn := true, sat := 7, ct := 9, colorMode := "hs" } (by decide)
  ⟨h.1, h.2.1⟩

end ViamHue
